import Mathlib

/-!
Verification development for the pebble-outreach campaign dispatch and
follow-up engine.  The Python backend is shallowly embedded: database tables
become lists of records, SQLAlchemy queries become list filters, and each
service function becomes a pure Lean function over those lists.  Timestamps
are modelled as integers (seconds), and the string-valued status column is
kept as a string, as in the source.
-/

namespace PebbleOutreach

/-!
## Python string primitives

`str.replace` in Python replaces every non-overlapping occurrence of a
non-empty pattern, scanning left to right; `str.replace(a, b, 1)` replaces
only the first occurrence.  We model both over character lists.  The
recursion is fuelled by the length of the subject string so that the
function is structurally recursive and computes by `rfl`.
-/

/-- One fuelled step of Python `str.replace`: on a match, emit the
replacement and skip past the matched pattern; otherwise keep the head
character and continue. -/
def replaceAllFuel (pat rep : List Char) : Nat → List Char → List Char
  | _, [] => []
  | 0, s => s
  | fuel + 1, c :: rest =>
    if pat.isPrefixOf (c :: rest) then
      rep ++ replaceAllFuel pat rep fuel (rest.drop (pat.length - 1))
    else
      c :: replaceAllFuel pat rep fuel rest

/-- Python `s.replace(pat, rep)` over character lists. -/
def replaceAllL (pat rep s : List Char) : List Char :=
  replaceAllFuel pat rep s.length s

/-- Python `s.replace(pat, rep, 1)` over character lists: only the first
occurrence is replaced. -/
def replaceFirstL (pat rep : List Char) : List Char → List Char
  | [] => []
  | c :: rest =>
    if pat.isPrefixOf (c :: rest) then
      rep ++ rest.drop (pat.length - 1)
    else
      c :: replaceFirstL pat rep rest

/-- Python `pat in s` (substring test) over character lists. -/
def containsSubL (pat : List Char) : List Char → Bool
  | [] => pat.isEmpty
  | c :: rest => pat.isPrefixOf (c :: rest) || containsSubL pat rest

/-- Python `s.replace(pat, rep)` on strings. -/
def pyReplace (s pat rep : String) : String :=
  String.mk (replaceAllL pat.data rep.data s.data)

/-- Python `s.replace(pat, rep, 1)` on strings. -/
def pyReplaceFirst (s pat rep : String) : String :=
  String.mk (replaceFirstL pat.data rep.data s.data)

/-- Python `pat in s` on strings. -/
def containsSubstr (s pat : String) : Bool :=
  containsSubL pat.data s.data

/-- Python `x or d` for an optional string column: `None` and the empty
string are falsy and yield the default. -/
def pyOr (v : Option String) (d : String) : String :=
  match v with
  | none => d
  | some s => if s == ("") then d else s

/-- Python truthiness of an optional string (`None` and `""` are falsy). -/
def pyTruthyStr : Option String → Bool
  | none => false
  | some s => !(s == (""))

/-!
## Data model

Lists stand for the database tables.  Fields not read by any embedded
operation (esp ids, click tracking, audit timestamps) are omitted.
-/

/-- Row of the `contacts` table (src/backend/src/models/contact_models.py),
with the `unsubscribed` flag that the follow-up queries reference.
Personalization columns are optional strings so that Python `or` defaults
can be modelled faithfully. -/
structure Contact where
  id : Nat
  campaignId : Nat
  email : Option String
  firstName : Option String
  lastName : Option String
  fullName : Option String
  companyName : Option String
  jobTitle : Option String
  industry : Option String
  city : Option String
  country : Option String
  unsubscribed : Bool
deriving DecidableEq

/-- Row of the `email_templates` table
(src/backend/src/models/email_template_models.py). -/
structure EmailTemplate where
  id : Nat
  campaignId : Nat
  name : String
  subjectTemplate : String
  bodyTemplate : String
  isPrimary : Bool
  isFollowUp : Bool
deriving DecidableEq

/-- Row of the `sent_emails` table
(src/backend/src/models/sent_email_models.py), the Sent-Message Ledger. -/
structure SentEmail where
  id : Nat
  campaignId : Nat
  contactId : Nat
  emailTemplateId : Nat
  subject : String
  body : String
  status : String
  statusReason : Option String
  trackingPixelId : Option String
  sentAt : Option Int
  openedAt : Option Int
  lastOpenedAt : Option Int
  firstOpenedIp : Option String
  openCount : Nat
  isFollowUp : Bool
  followsUpOnEmailId : Option Nat
  triggeredByRuleId : Option Nat
deriving DecidableEq

/-- Row of the follow-up-rules table (placeholder model in
src/backend/src/followups/db_operations.py: id, campaign_id, is_active,
delay_days, condition, original/follow-up template ids). -/
structure FollowUpRule where
  id : Nat
  campaignId : Nat
  originalEmailTemplateId : Nat
  followUpEmailTemplateId : Nat
  delayDays : Nat
  condition : String
  isActive : Bool
deriving DecidableEq

/-- `SELECT ... WHERE Contact.id == contact_id ... first()`. -/
def findContact (contacts : List Contact) (contactId : Nat) : Option Contact :=
  contacts.find? (fun c => c.id == contactId)

/-- `SELECT ... WHERE EmailTemplate.id == template_id ... first()`. -/
def findTemplate (templates : List EmailTemplate) (templateId : Nat) : Option EmailTemplate :=
  templates.find? (fun t => t.id == templateId)

/-!
## Campaign finalization (src/backend/src/campaigns/sending_service.py)
-/

/-- Pure core of `CampaignSendingService._update_final_campaign_status`
(sending_service.py lines 219-235): the terminal status chosen from the
success/failure counters of a finished run. -/
def update_final_campaign_status (successfulSends failedSends : Nat) : String :=
  if failedSends > 0 ∧ successfulSends > 0 then "active_with_errors"
  else if failedSends > 0 ∧ successfulSends = 0 then "failed"
  else if failedSends = 0 ∧ successfulSends > 0 then "completed"
  else "completed"

/-- The terminal-state selection table exactly as the spec words it
(section 4.1 `Finalize`): both zero, then fail and success positive, then
fail positive with success zero, then fail zero with success positive. -/
def finalStatusTable (successCount failCount : Nat) : String :=
  if successCount = 0 ∧ failCount = 0 then "completed"
  else if failCount > 0 ∧ successCount > 0 then "active_with_errors"
  else if failCount > 0 ∧ successCount = 0 then "failed"
  else "completed"

/-!
## Initial-send eligibility (src/backend/src/campaigns/db_operations.py)
-/

/-- Statuses the eligibility subquery treats as "successfully processed"
(db_operations.py line 119). -/
def successfulInitialStatuses : List String :=
  ["sent", "delivered", "opened", "clicked", "replied"]

/-- `db_get_eligible_contacts_for_campaign_sending` (campaigns/db_operations.py
lines 109-134): contacts of the campaign whose id is not in the subquery of
contact ids having an initial (is_follow_up = False) record with a
successfully-processed status.  Note: the source contains no filter on the
`unsubscribed` flag (it is commented out). -/
def db_get_eligible_contacts_for_campaign_sending
    (sentEmails : List SentEmail) (contacts : List Contact) (campaignId : Nat) :
    List Contact :=
  contacts.filter (fun c =>
    c.campaignId == campaignId &&
    !(sentEmails.any (fun e =>
        e.campaignId == campaignId &&
        e.isFollowUp == false &&
        successfulInitialStatuses.contains e.status &&
        e.contactId == c.id)))

/-- `InitialSendTargets` exactly as the spec words it (section 4.3): all
campaign contacts minus those with an existing initial record
(follows_up_on_id IS NULL) whose status is in the successful-terminal set,
minus unsubscribed contacts. -/
def initialSendTargetsSpec
    (sentEmails : List SentEmail) (contacts : List Contact) (campaignId : Nat) :
    List Contact :=
  contacts.filter (fun c =>
    c.campaignId == campaignId &&
    !c.unsubscribed &&
    !(sentEmails.any (fun e =>
        e.campaignId == campaignId &&
        e.followsUpOnEmailId.isNone &&
        successfulInitialStatuses.contains e.status &&
        e.contactId == c.id)))

/-!
## Open-event recording

Two implementations exist in the source: the one used by the tracking
endpoint (src/backend/src/email_sending/db_operations.py, via
EmailSendingService.record_email_opened) and a legacy one in
src/backend/src/followups/db_operations.py.
-/

/-- Terminal statuses that `db_record_email_open_event` refuses to
overwrite with "opened" (email_sending/db_operations.py line 53). -/
def openEventTerminalStatuses : List String :=
  ["clicked", "hard_bounced", "spam_complaint", "unsubscribed", "replied"]

/-- Terminal statuses of the legacy `db_record_email_open`
(followups/db_operations.py line 321).  It omits "replied". -/
def legacyOpenTerminalStatuses : List String :=
  ["clicked", "hard_bounced", "spam_complaint", "unsubscribed"]

/-- `db_record_email_open_event` (email_sending/db_operations.py lines
20-65): look up the ledger row by tracking token; if absent return false
and change nothing; otherwise issue an UPDATE on rows with the found id:
increment open_count, always set last_opened_at, set opened_at and
first_opened_ip only when previously unset (the ip also only when the
supplied ip is truthy), and set status to "opened" unless the current
status is terminal.  The event time stands for `datetime.utcnow()`. -/
def db_record_email_open_event
    (sentEmails : List SentEmail) (trackingPixelId : String)
    (openedIp : Option String) (now : Int) : List SentEmail × Bool :=
  match sentEmails.find? (fun e => e.trackingPixelId == some trackingPixelId) with
  | none => (sentEmails, false)
  | some r =>
    (sentEmails.map (fun e =>
      if e.id == r.id then
        { e with
          openCount := r.openCount + 1,
          lastOpenedAt := some now,
          openedAt := if r.openedAt.isNone then some now else e.openedAt,
          firstOpenedIp :=
            if pyTruthyStr openedIp && r.firstOpenedIp.isNone then openedIp
            else e.firstOpenedIp,
          status :=
            if openEventTerminalStatuses.contains r.status then e.status
            else "opened" }
      else e), true)

/-- Replace the first row satisfying the test (ORM identity update of the
row returned by `first()`). -/
def replaceFirstBy (p : SentEmail → Bool) (r : SentEmail) :
    List SentEmail → List SentEmail
  | [] => []
  | e :: rest => if p e then r :: rest else e :: replaceFirstBy p r rest

/-- Legacy `db_record_email_open` (followups/db_operations.py lines
292-328): same updates applied by mutating the fetched ORM row, except
that the ip is set whenever previously unset (no truthiness guard) and the
terminal-status list omits "replied". -/
def db_record_email_open
    (sentEmails : List SentEmail) (trackingPixelId : String)
    (openedIp : String) (now : Int) : List SentEmail × Bool :=
  match sentEmails.find? (fun e => e.trackingPixelId == some trackingPixelId) with
  | none => (sentEmails, false)
  | some r =>
    let r' : SentEmail :=
      { r with
        openCount := r.openCount + 1,
        lastOpenedAt := some now,
        openedAt := if r.openedAt.isNone then some now else r.openedAt,
        firstOpenedIp :=
          if r.firstOpenedIp.isNone then some openedIp else r.firstOpenedIp,
        status :=
          if legacyOpenTerminalStatuses.contains r.status then r.status
          else "opened" }
    (replaceFirstBy (fun e => e.trackingPixelId == some trackingPixelId) r' sentEmails, true)

/-- The terminal-priority set exactly as the claim and spec section 4.2
word it. -/
def claimTerminalPrioritySet : List String :=
  ["clicked", "replied", "hard_bounced", "spam_complaint", "unsubscribed"]

/-!
## Open-beacon endpoint (src/backend/src/tracking/pixel_handler.py)
-/

/-- An HTTP response as produced by the tracking endpoint: status code,
media type, body (held as the base64 text of the constant PNG bytes), and
cache-control headers. -/
structure HttpResponse where
  status : Nat
  mediaType : String
  bodyBase64 : String
  headers : List (String × String)
deriving DecidableEq

/-- The 1x1 transparent PNG served by the pixel endpoint
(pixel_handler.py MINIMAL_PNG_BYTES), as its base64 source text. -/
def minimalPngBase64 : String :=
  "iVBORw0KGgoAAAANSUhEUgAAAAEAAAABCAQAAAC1HAwCAAAAC0lEQVR42mNkYAAAAAYAAjCB0C8AAAAASUVORK5CYII="

/-- The fixed response always returned by the pixel endpoint
(pixel_handler.py lines 64-74). -/
def pixelResponse : HttpResponse :=
  { status := 200,
    mediaType := "image/png",
    bodyBase64 := minimalPngBase64,
    headers :=
      [("Cache-Control", "no-cache, no-store, must-revalidate, private, max-age=0"),
       ("Pragma", "no-cache"),
       ("Expires", "0")] }

/-- `EmailSendingService.record_email_opened` (email_sending/service.py
lines 193-212): delegate to `db_record_email_open_event` and commit. -/
def record_email_opened
    (sentEmails : List SentEmail) (trackingPixelId : String)
    (ipAddress : Option String) (now : Int) : List SentEmail × Bool :=
  db_record_email_open_event sentEmails trackingPixelId ipAddress now

/-- `handle_open_tracking_pixel_request_api` (pixel_handler.py lines
32-74), with the outcome of the recording attempt abstracted as an
`Except` so that a raised exception can be represented: whatever the
recorder did — found the token, missed it, or raised — the endpoint
returns the same fixed PNG response. -/
def handle_open_tracking_pixel_generic
    (recorderOutcome : Except String (List SentEmail × Bool))
    (sentEmails : List SentEmail) : HttpResponse × List SentEmail :=
  match recorderOutcome with
  | Except.ok (sentEmails', _wasRecorded) => (pixelResponse, sentEmails')
  | Except.error _ => (pixelResponse, sentEmails)

/-- The endpoint instantiated with the real recorder. -/
def handle_open_tracking_pixel_request_api
    (sentEmails : List SentEmail) (pixelId : String) (clientIp : String)
    (now : Int) : HttpResponse × List SentEmail :=
  handle_open_tracking_pixel_generic
    (Except.ok (record_email_opened sentEmails pixelId (some clientIp) now))
    sentEmails

/-!
## Personalization Engine (src/backend/src/campaigns/sending_service.py)
-/

/-- `CampaignSendingService._personalize_content` (sending_service.py lines
191-206): sequential Python `str.replace` over the replacement dictionary in
insertion order.  first_name and company_name fall back to non-empty
defaults; the remaining six tokens fall back to the empty string. -/
def personalize_content (content : String) (c : Contact) : String :=
  let r1 := pyReplace content ("\x7b\x7bfirst_name\x7d\x7d") (pyOr c.firstName ("there"))
  let r2 := pyReplace r1 ("\x7b\x7blast_name\x7d\x7d") (pyOr c.lastName (""))
  let r3 := pyReplace r2 ("\x7b\x7bfull_name\x7d\x7d") (pyOr c.fullName (""))
  let r4 := pyReplace r3 ("\x7b\x7bcompany_name\x7d\x7d") (pyOr c.companyName ("your company"))
  let r5 := pyReplace r4 ("\x7b\x7bjob_title\x7d\x7d") (pyOr c.jobTitle (""))
  let r6 := pyReplace r5 ("\x7b\x7bindustry\x7d\x7d") (pyOr c.industry (""))
  let r7 := pyReplace r6 ("\x7b\x7bcity\x7d\x7d") (pyOr c.city (""))
  pyReplace r7 ("\x7b\x7bcountry\x7d\x7d") (pyOr c.country (""))

/-- The eight tokens known to `personalize_content`, in replacement order. -/
def knownTokens : List String :=
  ["\x7b\x7bfirst_name\x7d\x7d", "\x7b\x7blast_name\x7d\x7d",
   "\x7b\x7bfull_name\x7d\x7d", "\x7b\x7bcompany_name\x7d\x7d",
   "\x7b\x7bjob_title\x7d\x7d", "\x7b\x7bindustry\x7d\x7d",
   "\x7b\x7bcity\x7d\x7d", "\x7b\x7bcountry\x7d\x7d"]

/-- The beacon img tag built by `_add_tracking_pixel` (sending_service.py
lines 208-215). -/
def trackingPixelTag (appBaseUrl pixelId : String) : String :=
  "<img src=\"" ++ appBaseUrl ++ "/track/open/" ++ pixelId ++
    ".png\" width=\"1\" height=\"1\" alt=\"\" style=\"display:none;\">"

/-- `CampaignSendingService._add_tracking_pixel`: insert the tag right
before the first closing body marker when present, else append it. -/
def add_tracking_pixel (appBaseUrl : String) (body : String) (pixelId : String) : String :=
  let tag := trackingPixelTag appBaseUrl pixelId
  if containsSubstr body ("</body>") then
    pyReplaceFirst body ("</body>") (tag ++ "</body>")
  else
    body ++ tag

/-!
## Dispatch Worker (src/backend/src/campaigns/sending_service.py)

The SMTP transport is injected as a function from recipient address to
`(success, errorDetail)`, as in the spec's external-interface contract.
The per-contact fresh UUID for the tracking pixel is injected as a
generator keyed by the contact id.
-/

/-- Outcome of `CampaignSendingService._process_contact` for one contact:
the returned pair, the ledger row added to the session (if any), and the
recipients for which the transport was actually invoked. -/
structure ContactSendResult where
  ok : Bool
  err : Option String
  staged : Option SentEmail
  attemptedRecipients : List String
deriving DecidableEq

/-- `CampaignSendingService._process_contact` (sending_service.py lines
132-189): a contact without an email address is counted as a failure with
reason "Contact has no email address" before the transport is touched and
before any ledger row is staged; otherwise the content is personalized,
the pixel appended, the transport invoked once, and a ledger row staged
with status sent or failed (sent_at only on success, is_follow_up false). -/
def process_contact
    (transport : String → Bool × Option String) (appBaseUrl : String)
    (pixelIdOf : Nat → String) (now : Int) (campaignId : Nat)
    (template : EmailTemplate) (c : Contact) : ContactSendResult :=
  if pyTruthyStr c.email = false then
    { ok := false, err := some ("Contact has no email address"),
      staged := none, attemptedRecipients := [] }
  else
    let addr := c.email.getD ("")
    let subject := personalize_content template.subjectTemplate c
    let body := personalize_content template.bodyTemplate c
    let pixelId := pixelIdOf c.id
    let finalBody := add_tracking_pixel appBaseUrl body pixelId
    let res := transport addr
    { ok := res.1, err := res.2,
      staged := some
        { id := 0, campaignId := campaignId, contactId := c.id,
          emailTemplateId := template.id, subject := subject,
          body := finalBody,
          status := if res.1 then "sent" else "failed",
          statusReason := if res.1 then none else res.2,
          trackingPixelId := some pixelId,
          sentAt := if res.1 then some now else none,
          openedAt := none, lastOpenedAt := none, firstOpenedIp := none,
          openCount := 0, isFollowUp := false,
          followsUpOnEmailId := none, triggeredByRuleId := none },
      attemptedRecipients := [addr] }

/-- Aggregate outcome of the per-contact loop in
`process_and_send_campaign` (sending_service.py lines 77-106). -/
structure DispatchRunResult where
  successfulSends : Nat
  failedSends : Nat
  staged : List SentEmail
  transportCalls : List String
deriving DecidableEq

/-- The per-contact loop of `process_and_send_campaign`: every contact is
processed; a success bumps the success counter, anything else bumps the
failure counter, and the loop continues either way. -/
def process_and_send_loop
    (transport : String → Bool × Option String) (appBaseUrl : String)
    (pixelIdOf : Nat → String) (now : Int) (campaignId : Nat)
    (template : EmailTemplate) : List Contact → DispatchRunResult
  | [] => { successfulSends := 0, failedSends := 0, staged := [], transportCalls := [] }
  | c :: rest =>
    let r := process_contact transport appBaseUrl pixelIdOf now campaignId template c
    let acc := process_and_send_loop transport appBaseUrl pixelIdOf now campaignId template rest
    { successfulSends := if r.ok then acc.successfulSends + 1 else acc.successfulSends,
      failedSends := if r.ok then acc.failedSends else acc.failedSends + 1,
      staged := r.staged.toList ++ acc.staged,
      transportCalls := r.attemptedRecipients ++ acc.transportCalls }

/-!
## Primary-template promotion (src/backend/src/ai_chat/service.py)
-/

/-- Step 1 of `finalize_style_and_create_template` (ai_chat/service.py
lines 118-135): iterate over the campaign's templates and clear the
primary flag of any that carry it; this change is committed on its own. -/
def demoteCampaignPrimaries (templates : List EmailTemplate) (campaignId : Nat) :
    List EmailTemplate :=
  templates.map (fun t =>
    if t.campaignId == campaignId && t.isPrimary then { t with isPrimary := false }
    else t)

/-- The new template inserted by Step 2 of
`finalize_style_and_create_template` (ai_chat/service.py lines 137-156),
created with the primary flag set. -/
def mkFinalizedTemplate (newId campaignId : Nat) (name subj body : String) :
    EmailTemplate :=
  { id := newId, campaignId := campaignId, name := name,
    subjectTemplate := subj, bodyTemplate := body,
    isPrimary := true, isFollowUp := false }

/-- `finalize_style_and_create_template`, template-table view: the first
component is the table as committed after the demotion step, the second
the table as committed after the new primary template is inserted.  The
two components are two separate transactions in the source. -/
def finalize_style_and_create_template
    (templates : List EmailTemplate) (campaignId newId : Nat)
    (name subj body : String) : List EmailTemplate × List EmailTemplate :=
  let afterDemote := demoteCampaignPrimaries templates campaignId
  (afterDemote, afterDemote ++ [mkFinalizedTemplate newId campaignId name subj body])

/-- The primary templates of a campaign in a committed table state. -/
def primaryTemplatesFor (templates : List EmailTemplate) (campaignId : Nat) :
    List EmailTemplate :=
  templates.filter (fun t => t.campaignId == campaignId && t.isPrimary)

/-!
## Follow-Up Rule Engine (src/backend/src/followups/)
-/

/-- Status filter of `db_get_initial_emails_for_rule`
(followups/db_operations.py lines 198-215): the two delay conditions
restrict the status; `sent_anyway` — and any unknown condition string —
apply no status filter. -/
def statusQualifies (cond status : String) : Bool :=
  if cond == ("not_opened_within_delay") then
    (["sent", "delivered", "hard_bounced", "soft_bounced"]).contains status
  else if cond == ("not_clicked_within_delay") then
    (["sent", "delivered", "opened", "hard_bounced", "soft_bounced"]).contains status
  else
    true

/-- Row filter of `db_get_initial_emails_for_rule` (followups/
db_operations.py lines 189-196): campaign and original template match, the
sent timestamp is at most now minus the delay (NULL never qualifies), the
inner-joined contact exists and is not unsubscribed, the record is an
initial one (follows_up_on_email_id IS NULL), and the status filter for
the rule condition holds. -/
def initialEmailPred (contacts : List Contact) (campaignId origTemplateId : Nat)
    (cond : String) (minDelaySeconds now : Int) (e : SentEmail) : Bool :=
  e.campaignId == campaignId &&
  e.emailTemplateId == origTemplateId &&
  (match e.sentAt with
   | some t => decide (t ≤ now - minDelaySeconds)
   | none => false) &&
  (match findContact contacts e.contactId with
   | some c => !c.unsubscribed
   | none => false) &&
  e.followsUpOnEmailId.isNone &&
  statusQualifies cond e.status

/-- `db_get_initial_emails_for_rule` (followups/db_operations.py lines
166-218). -/
def db_get_initial_emails_for_rule
    (sentEmails : List SentEmail) (contacts : List Contact)
    (campaignId origTemplateId : Nat) (cond : String)
    (minDelaySeconds now : Int) : List SentEmail :=
  sentEmails.filter (initialEmailPred contacts campaignId origTemplateId cond minDelaySeconds now)

/-- The statuses the spec calls the non-failed terminal ones: every status
of the closed enum except draft, sending and failed. -/
def nonFailedTerminalStatuses : List String :=
  ["sent", "delivered", "opened", "clicked", "replied",
   "hard_bounced", "soft_bounced", "spam_complaint", "unsubscribed"]

/-- The qualifying-status table exactly as the claim and spec section 4.3
word it, including `sent_anyway` mapping to any non-failed terminal
status. -/
def claimStatusQualifies (cond status : String) : Bool :=
  if cond == ("not_opened_within_delay") then
    (["sent", "delivered", "hard_bounced", "soft_bounced"]).contains status
  else if cond == ("not_clicked_within_delay") then
    (["sent", "delivered", "opened", "hard_bounced", "soft_bounced"]).contains status
  else
    nonFailedTerminalStatuses.contains status

/-- The row test of `db_has_follow_up_been_sent`: a follow-up of the given
original record created by the given rule. -/
def pairMatches (originalEmailId followUpRuleId : Nat) (e : SentEmail) : Bool :=
  e.followsUpOnEmailId == some originalEmailId &&
  e.triggeredByRuleId == some followUpRuleId

/-- `db_has_follow_up_been_sent` (followups/db_operations.py lines
220-239): EXISTS over the ledger for the (original, rule) pair. -/
def db_has_follow_up_been_sent
    (sentEmails : List SentEmail) (originalEmailId followUpRuleId : Nat) : Bool :=
  sentEmails.any (pairMatches originalEmailId followUpRuleId)

/-- `db_get_active_follow_up_rules` (followups/db_operations.py lines
151-164). -/
def db_get_active_follow_up_rules (rules : List FollowUpRule) : List FollowUpRule :=
  rules.filter (fun r => r.isActive)

/-- The processor's inline personalization of a follow-up template
(processor_service.py lines 109-113): only the first_name and company_name
tokens, with their non-empty defaults. -/
def personalizeFollowUp (tmpl : String) (c : Contact) : String :=
  pyReplace
    (pyReplace tmpl ("\x7b\x7bfirst_name\x7d\x7d") (pyOr c.firstName ("there")))
    ("\x7b\x7bcompany_name\x7d\x7d") (pyOr c.companyName ("your company"))

/-- The draft ledger row staged for a follow-up (processor_service.py
lines 115-135): status draft, no send timestamp, follows_up_on and
triggered_by set, body suffixed with the beacon tag.  The fresh UUID hex
is injected as a generator keyed by the (original, rule) pair; the row id
is a database surrogate key that no engine logic reads, modelled as 0. -/
def mkFollowUpRecord (uuidGen : Nat → Nat → String) (appBaseUrl : String)
    (rule : FollowUpRule) (orig : SentEmail) (c : Contact)
    (tmpl : EmailTemplate) : SentEmail :=
  let pixelId := uuidGen orig.id rule.id
  { id := 0, campaignId := rule.campaignId, contactId := orig.contactId,
    emailTemplateId := rule.followUpEmailTemplateId,
    subject := personalizeFollowUp tmpl.subjectTemplate c,
    body := personalizeFollowUp tmpl.bodyTemplate c ++
      "<img src=\"" ++ appBaseUrl ++ "/track/open/" ++ pixelId ++
      ".png\" width=\"1\" height=\"1\" alt=\"\" style=\"display:none;\">",
    status := "draft", statusReason := none,
    trackingPixelId := some pixelId,
    sentAt := none, openedAt := none, lastOpenedAt := none,
    firstOpenedIp := none, openCount := 0, isFollowUp := false,
    followsUpOnEmailId := some orig.id, triggeredByRuleId := some rule.id }

/-- The state-independent reasons the processor loop skips a candidate
after the idempotency check: missing contact, missing follow-up template,
or an unsubscribed contact (processor_service.py lines 96-105). -/
def skipsIndep (contacts : List Contact) (templates : List EmailTemplate)
    (rule : FollowUpRule) (orig : SentEmail) : Bool :=
  match findContact contacts orig.contactId,
        findTemplate templates rule.followUpEmailTemplateId with
  | some c, some _ => c.unsubscribed
  | _, _ => true

/-- The inner loop of `process_due_follow_ups` (processor_service.py lines
77-142) over one rule's candidate list: skip when a follow-up for the
(original, rule) pair already exists, skip on missing contact or template
or an unsubscribed contact, otherwise stage (and commit) the draft
follow-up and count it. -/
def processCandidates (contacts : List Contact) (templates : List EmailTemplate)
    (uuidGen : Nat → Nat → String) (appBaseUrl : String) (rule : FollowUpRule) :
    List SentEmail → List SentEmail → List SentEmail × Nat
  | sentEmails, [] => (sentEmails, 0)
  | sentEmails, orig :: rest =>
    if db_has_follow_up_been_sent sentEmails orig.id rule.id then
      processCandidates contacts templates uuidGen appBaseUrl rule sentEmails rest
    else
      match findContact contacts orig.contactId,
            findTemplate templates rule.followUpEmailTemplateId with
      | some c, some t =>
        if c.unsubscribed then
          processCandidates contacts templates uuidGen appBaseUrl rule sentEmails rest
        else
          let next := processCandidates contacts templates uuidGen appBaseUrl rule
            (sentEmails ++ [mkFollowUpRecord uuidGen appBaseUrl rule orig c t]) rest
          (next.1, next.2 + 1)
      | _, _ => processCandidates contacts templates uuidGen appBaseUrl rule sentEmails rest

/-- Processing of one active rule (processor_service.py lines 55-75): the
candidate list is computed once from the current ledger, then the inner
loop runs; the rule delay is `timedelta(days=delay_days)`. -/
def processRule (contacts : List Contact) (templates : List EmailTemplate)
    (uuidGen : Nat → Nat → String) (appBaseUrl : String) (now : Int)
    (sentEmails : List SentEmail) (rule : FollowUpRule) : List SentEmail × Nat :=
  processCandidates contacts templates uuidGen appBaseUrl rule sentEmails
    (db_get_initial_emails_for_rule sentEmails contacts rule.campaignId
      rule.originalEmailTemplateId rule.condition ((rule.delayDays : Int) * 86400) now)

/-- The outer loop of `process_due_follow_ups` over the active rules. -/
def processRules (contacts : List Contact) (templates : List EmailTemplate)
    (uuidGen : Nat → Nat → String) (appBaseUrl : String) (now : Int) :
    List SentEmail → List FollowUpRule → List SentEmail × Nat
  | sentEmails, [] => (sentEmails, 0)
  | sentEmails, rule :: rest =>
    let first := processRule contacts templates uuidGen appBaseUrl now sentEmails rule
    let next := processRules contacts templates uuidGen appBaseUrl now first.1 rest
    (next.1, first.2 + next.2)

/-- `process_due_follow_ups` (processor_service.py lines 41-146): returns
the new ledger, the number of processed rules and the number of created
follow-up drafts. -/
def process_due_follow_ups (rules : List FollowUpRule) (contacts : List Contact)
    (templates : List EmailTemplate) (uuidGen : Nat → Nat → String)
    (appBaseUrl : String) (now : Int) (sentEmails : List SentEmail) :
    List SentEmail × Nat × Nat :=
  let active := db_get_active_follow_up_rules rules
  let res := processRules contacts templates uuidGen appBaseUrl now sentEmails active
  (res.1, active.length, res.2)

/-- A ledger row that is itself a follow-up (follows_up_on set). -/
def isFollowUpRecord (e : SentEmail) : Bool :=
  e.followsUpOnEmailId.isSome

/-- Invariant used to prove follow-up idempotence: a candidate original row
is settled for a rule when a follow-up for the (original, rule) pair
already exists in the ledger, or when the processor skips it for a reason
that does not depend on the ledger (missing contact, missing follow-up
template, unsubscribed contact). -/
def SettledFor (contacts : List Contact) (templates : List EmailTemplate)
    (rule : FollowUpRule) (sentEmails : List SentEmail) (orig : SentEmail) : Prop :=
  db_has_follow_up_been_sent sentEmails orig.id rule.id = true ∨
  skipsIndep contacts templates rule orig = true

/-- Invariant: every candidate the rule's query returns on this ledger is
settled, so processing the rule stages nothing. -/
def RuleSettled (contacts : List Contact) (templates : List EmailTemplate)
    (now : Int) (sentEmails : List SentEmail) (rule : FollowUpRule) : Prop :=
  ∀ orig ∈ db_get_initial_emails_for_rule sentEmails contacts rule.campaignId
      rule.originalEmailTemplateId rule.condition ((rule.delayDays : Int) * 86400) now,
    SettledFor contacts templates rule sentEmails orig

/-! ## Theorems -/

/-- C4: for every finished dispatch run with counts (successCount,
failCount), the campaign's final status is selected exactly by the
spec's terminal-state table: both zero gives completed; fail positive and
success positive gives active_with_errors; fail positive and success zero
gives failed; fail zero and success positive gives completed. -/
theorem final_campaign_status_matches_table (s f : Nat) :
    update_final_campaign_status s f = finalStatusTable s f := by
  unfold update_final_campaign_status finalStatusTable
  split_ifs <;> first | rfl | omega

/-- C2: evaluation of the code at the failing input.  A contact of the
campaign that is unsubscribed and has no ledger record at all is returned
by `db_get_eligible_contacts_for_campaign_sending`, while the spec's
`InitialSendTargets` excludes it.  The claim that the eligible set equals
all campaign contacts minus successfully-contacted minus unsubscribed is
violated by the code, which the spec itself flags as a source gap. -/
theorem eligible_contacts_code_returns_unsubscribed :
    (db_get_eligible_contacts_for_campaign_sending []
      [{ id := 7, campaignId := 1, email := some ("u@example.com"),
         firstName := none, lastName := none, fullName := none,
         companyName := none, jobTitle := none, industry := none,
         city := none, country := none, unsubscribed := true }] 1
      = [{ id := 7, campaignId := 1, email := some ("u@example.com"),
           firstName := none, lastName := none, fullName := none,
           companyName := none, jobTitle := none, industry := none,
           city := none, country := none, unsubscribed := true }]) ∧
    (initialSendTargetsSpec []
      [{ id := 7, campaignId := 1, email := some ("u@example.com"),
         firstName := none, lastName := none, fullName := none,
         companyName := none, jobTitle := none, industry := none,
         city := none, country := none, unsubscribed := true }] 1
      = []) := by
  constructor <;> rfl

/-- C9: the open-beacon endpoint returns one and the same fixed 1x1 PNG
response — same status 200, same media type, same body, same headers — for
every ledger state, token and client ip, and also when the recording step
raises; two runs with a recognized and an unrecognized token are
indistinguishable at the HTTP layer. -/
theorem pixel_endpoint_response_constant :
    (∀ outcome sentEmails,
      (handle_open_tracking_pixel_generic outcome sentEmails).1 = pixelResponse) ∧
    (∀ s₁ s₂ tok₁ tok₂ ip₁ ip₂ now₁ now₂,
      (handle_open_tracking_pixel_request_api s₁ tok₁ ip₁ now₁).1
        = (handle_open_tracking_pixel_request_api s₂ tok₂ ip₂ now₂).1) ∧
    pixelResponse.status = 200 := by
  refine ⟨?_, ?_, rfl⟩
  · intro outcome sentEmails
    cases outcome <;> rfl
  · intro s₁ s₂ tok₁ tok₂ ip₁ ip₂ now₁ now₂
    rfl

/-! ### Dispatch worker lemmas -/

/-- A contact without a (truthy) email address is rejected before the
transport and before any ledger row is staged. -/
theorem process_contact_no_email
    (transport : String → Bool × Option String) (appBaseUrl : String)
    (pixelIdOf : Nat → String) (now : Int) (campaignId : Nat)
    (template : EmailTemplate) (c : Contact) (h : pyTruthyStr c.email = false) :
    process_contact transport appBaseUrl pixelIdOf now campaignId template c =
      { ok := false, err := some ("Contact has no email address"),
        staged := none, attemptedRecipients := [] } := by
  simp [process_contact, h]

/-- The transport is invoked exactly once per contact with a truthy email
address and never otherwise. -/
theorem process_contact_attempted
    (transport : String → Bool × Option String) (appBaseUrl : String)
    (pixelIdOf : Nat → String) (now : Int) (campaignId : Nat)
    (template : EmailTemplate) (c : Contact) :
    (process_contact transport appBaseUrl pixelIdOf now campaignId template c).attemptedRecipients =
      if pyTruthyStr c.email then [c.email.getD ("")] else [] := by
  cases h : pyTruthyStr c.email <;> simp [process_contact, h]

/-- Every staged ledger row of a run belongs to some contact of the batch
with a truthy email address. -/
theorem process_and_send_loop_staged_sources
    (transport : String → Bool × Option String) (appBaseUrl : String)
    (pixelIdOf : Nat → String) (now : Int) (campaignId : Nat)
    (template : EmailTemplate) (contacts : List Contact) :
    ∀ e ∈ (process_and_send_loop transport appBaseUrl pixelIdOf now campaignId
            template contacts).staged,
      ∃ c ∈ contacts, pyTruthyStr c.email = true ∧ e.contactId = c.id := by
  induction contacts with
  | nil => intro e he; simp [process_and_send_loop] at he
  | cons c rest ih =>
    intro e he
    simp only [process_and_send_loop, List.mem_append] at he
    rcases he with he | he
    · cases h : pyTruthyStr c.email with
      | false =>
        rw [process_contact_no_email transport appBaseUrl pixelIdOf now campaignId template c h] at he
        simp at he
      | true =>
        refine ⟨c, List.mem_cons_self c rest, h, ?_⟩
        simp only [process_contact, h] at he
        simp at he
        subst he
        rfl
    · obtain ⟨c', hc', ht, hid⟩ := ih e he
      exact ⟨c', List.mem_cons_of_mem c hc', ht, hid⟩

/-- The failed counter of a run counts exactly the contacts whose
processing did not succeed. -/
theorem process_and_send_loop_failed_count
    (transport : String → Bool × Option String) (appBaseUrl : String)
    (pixelIdOf : Nat → String) (now : Int) (campaignId : Nat)
    (template : EmailTemplate) (contacts : List Contact) :
    (process_and_send_loop transport appBaseUrl pixelIdOf now campaignId
        template contacts).failedSends =
      (contacts.filter (fun c =>
        !(process_contact transport appBaseUrl pixelIdOf now campaignId template c).ok)).length := by
  induction contacts with
  | nil => rfl
  | cons c rest ih =>
    cases h : (process_contact transport appBaseUrl pixelIdOf now campaignId template c).ok <;>
      simp [process_and_send_loop, List.filter_cons, h, ih]

/-- C6: for every dispatch run that completes without a batch-level error,
the success and failure counters sum to the number of targets attempted —
every contact of the batch contributes to exactly one of the two counters,
a per-recipient failure merely increments the failed counter and the loop
continues — and the transport is invoked exactly once per addressable
target (no retry, no abort-on-first-failure). -/
theorem dispatch_counters_sum_to_attempts
    (transport : String → Bool × Option String) (appBaseUrl : String)
    (pixelIdOf : Nat → String) (now : Int) (campaignId : Nat)
    (template : EmailTemplate) (contacts : List Contact) :
    (process_and_send_loop transport appBaseUrl pixelIdOf now campaignId
        template contacts).successfulSends +
      (process_and_send_loop transport appBaseUrl pixelIdOf now campaignId
        template contacts).failedSends = contacts.length ∧
    (process_and_send_loop transport appBaseUrl pixelIdOf now campaignId
        template contacts).transportCalls =
      (contacts.filter (fun c => pyTruthyStr c.email)).map (fun c => c.email.getD ("")) := by
  induction contacts with
  | nil => exact ⟨rfl, rfl⟩
  | cons c rest ih =>
    constructor
    · have hsum := ih.1
      cases h : (process_contact transport appBaseUrl pixelIdOf now campaignId template c).ok <;>
        simp only [process_and_send_loop, h, List.length_cons] <;> simp <;> omega
    · simp only [process_and_send_loop, List.filter_cons]
      rw [process_contact_attempted]
      cases h : pyTruthyStr c.email <;> simp [h, ih.2]

/-- C10: a target contact of an initial dispatch run whose email field is
empty or missing is counted as one failed send with reason "Contact has no
email address", the transport collaborator is never invoked for it, no
ledger row is staged for it, and — provided contact ids are unique in the
batch — the contact is still returned by the eligibility query once the
run's staged rows are appended to the ledger. -/
theorem no_email_contact_fails_without_send_and_stays_eligible
    (transport : String → Bool × Option String) (appBaseUrl : String)
    (pixelIdOf : Nat → String) (now : Int) (campaignId : Nat)
    (template : EmailTemplate) (sentEmails : List SentEmail)
    (contacts : List Contact) (c : Contact)
    (hmem : c ∈ contacts)
    (hnoemail : pyTruthyStr c.email = false)
    (hids : ∀ c' ∈ contacts, c'.id = c.id → c' = c)
    (helig : c ∈ db_get_eligible_contacts_for_campaign_sending sentEmails contacts campaignId) :
    process_contact transport appBaseUrl pixelIdOf now campaignId template c =
      { ok := false, err := some ("Contact has no email address"),
        staged := none, attemptedRecipients := [] } ∧
    1 ≤ (process_and_send_loop transport appBaseUrl pixelIdOf now campaignId
          template contacts).failedSends ∧
    c ∈ db_get_eligible_contacts_for_campaign_sending
          (sentEmails ++ (process_and_send_loop transport appBaseUrl pixelIdOf now
            campaignId template contacts).staged)
          contacts campaignId := by
  have hpc := process_contact_no_email transport appBaseUrl pixelIdOf now campaignId template c hnoemail
  refine ⟨hpc, ?_, ?_⟩
  · rw [process_and_send_loop_failed_count]
    have : c ∈ contacts.filter (fun c' =>
        !(process_contact transport appBaseUrl pixelIdOf now campaignId template c').ok) := by
      rw [List.mem_filter]
      exact ⟨hmem, by rw [hpc]; rfl⟩
    have hne := List.ne_nil_of_mem this
    cases hfl : contacts.filter (fun c' =>
        !(process_contact transport appBaseUrl pixelIdOf now campaignId template c').ok) with
    | nil => exact absurd hfl hne
    | cons a l => simp [hfl]
  · simp only [db_get_eligible_contacts_for_campaign_sending] at helig ⊢
    rw [List.mem_filter] at helig ⊢
    refine ⟨helig.1, ?_⟩
    have h2 := helig.2
    simp only [Bool.and_eq_true, Bool.not_eq_true'] at h2 ⊢
    refine ⟨h2.1, ?_⟩
    rw [List.any_append, Bool.or_eq_false_iff]
    refine ⟨h2.2, ?_⟩
    rw [List.any_eq_false]
    intro e he
    obtain ⟨c', hc', htruthy, hid⟩ :=
      process_and_send_loop_staged_sources transport appBaseUrl pixelIdOf now
        campaignId template contacts e he
    intro hpred
    simp only [Bool.and_eq_true, beq_iff_eq] at hpred
    have : c' = c := hids c' hc' (hid ▸ hpred.2)
    rw [this] at htruthy
    rw [htruthy] at hnoemail
    cases hnoemail

/-! ### Primary-template promotion lemmas -/

/-- After the demotion step no template of the campaign carries the
primary flag. -/
theorem primaryTemplatesFor_demote (templates : List EmailTemplate) (campaignId : Nat) :
    primaryTemplatesFor (demoteCampaignPrimaries templates campaignId) campaignId = [] := by
  rw [primaryTemplatesFor, List.filter_eq_nil_iff]
  intro t ht
  rw [demoteCampaignPrimaries, List.mem_map] at ht
  obtain ⟨t₀, _, rfl⟩ := ht
  by_cases hc : t₀.campaignId = campaignId
  · cases hp : t₀.isPrimary <;> simp [hc, hp]
  · have : (t₀.campaignId == campaignId) = false := beq_eq_false_iff_ne.mpr hc
    cases hp : t₀.isPrimary <;> simp [this, hp]

/-- The demotion step does not touch the primary templates of any other
campaign. -/
theorem primaryTemplatesFor_demote_other (templates : List EmailTemplate)
    (campaignId campaignId' : Nat) (h : campaignId' ≠ campaignId) :
    primaryTemplatesFor (demoteCampaignPrimaries templates campaignId) campaignId' =
      primaryTemplatesFor templates campaignId' := by
  unfold primaryTemplatesFor demoteCampaignPrimaries
  rw [List.filter_map]
  have h1 : List.filter
      ((fun t : EmailTemplate => t.campaignId == campaignId' && t.isPrimary) ∘
        (fun t : EmailTemplate =>
          if t.campaignId == campaignId && t.isPrimary then { t with isPrimary := false } else t))
      templates
      = List.filter (fun t : EmailTemplate => t.campaignId == campaignId' && t.isPrimary) templates := by
    apply List.filter_congr
    intro t _
    simp only [Function.comp]
    by_cases hcid : t.campaignId = campaignId
    · cases hp : t.isPrimary with
      | false => simp [hp]
      | true =>
        have hne : (campaignId == campaignId') = false :=
          beq_eq_false_iff_ne.mpr (Ne.symm h)
        simp [hcid, hp, hne]
    · have hne0 : (t.campaignId == campaignId) = false := beq_eq_false_iff_ne.mpr hcid
      simp [hne0]
  rw [h1]
  have h2 : ∀ t ∈ List.filter
      (fun t : EmailTemplate => t.campaignId == campaignId' && t.isPrimary) templates,
      (if t.campaignId == campaignId && t.isPrimary then ({ t with isPrimary := false } : EmailTemplate) else t)
        = id t := by
    intro t ht
    have hp := (List.mem_filter.mp ht).2
    rw [Bool.and_eq_true] at hp
    have hcid : t.campaignId = campaignId' := beq_iff_eq.mp hp.1
    have hne : (t.campaignId == campaignId) = false :=
      beq_eq_false_iff_ne.mpr (fun hx => h ((hcid ▸ hx : campaignId' = campaignId)))
    simp [hne]
  rw [List.map_congr_left h2, List.map_id]

/-- C7 counterexample: promoting a new template over an existing primary
T1 is not a single transaction.  The first committed state produced by
`finalize_style_and_create_template` (the demotion commit) leaves the
campaign with zero primary templates and without the new template, a
committed instant that cannot exist under an atomic
demote-and-promote-in-one-transaction as the claim states it. -/
theorem promote_primary_two_commits_counterexample :
    (primaryTemplatesFor
      [{ id := 1, campaignId := 1, name := "T1", subjectTemplate := "s1",
         bodyTemplate := "b1", isPrimary := true, isFollowUp := false }] 1).length = 1 ∧
    (primaryTemplatesFor
      (finalize_style_and_create_template
        [{ id := 1, campaignId := 1, name := "T1", subjectTemplate := "s1",
           bodyTemplate := "b1", isPrimary := true, isFollowUp := false }]
        1 2 ("T2") ("s2") ("b2")).1 1).length = 0 ∧
    (finalize_style_and_create_template
        [{ id := 1, campaignId := 1, name := "T1", subjectTemplate := "s1",
           bodyTemplate := "b1", isPrimary := true, isFollowUp := false }]
        1 2 ("T2") ("s2") ("b2")).1 ≠
      [{ id := 1, campaignId := 1, name := "T1", subjectTemplate := "s1",
         bodyTemplate := "b1", isPrimary := true, isFollowUp := false }] := by
  refine ⟨rfl, rfl, ?_⟩
  decide

/-- C7 amended: promotion happens in two separately committed steps — the
demotion commit leaves the campaign with zero primary templates, then the
insertion commit leaves exactly one primary template, the newly created
one; templates of every other campaign are untouched at both commits.  So
at-most-one-primary-per-campaign holds at every committed instant and
promoting T2 over T1 ends with exactly one primary (T2), but not within a
single transaction. -/
theorem promote_primary_amended (templates : List EmailTemplate)
    (campaignId newId : Nat) (name subj body : String) :
    primaryTemplatesFor
      (finalize_style_and_create_template templates campaignId newId name subj body).1
      campaignId = [] ∧
    primaryTemplatesFor
      (finalize_style_and_create_template templates campaignId newId name subj body).2
      campaignId = [mkFinalizedTemplate newId campaignId name subj body] ∧
    (∀ campaignId', campaignId' ≠ campaignId →
      primaryTemplatesFor
        (finalize_style_and_create_template templates campaignId newId name subj body).1
        campaignId' = primaryTemplatesFor templates campaignId' ∧
      primaryTemplatesFor
        (finalize_style_and_create_template templates campaignId newId name subj body).2
        campaignId' = primaryTemplatesFor templates campaignId') := by
  refine ⟨primaryTemplatesFor_demote templates campaignId, ?_, ?_⟩
  · show primaryTemplatesFor
      (demoteCampaignPrimaries templates campaignId ++
        [mkFinalizedTemplate newId campaignId name subj body]) campaignId = _
    rw [primaryTemplatesFor, List.filter_append]
    rw [show List.filter _ (demoteCampaignPrimaries templates campaignId) =
      primaryTemplatesFor (demoteCampaignPrimaries templates campaignId) campaignId from rfl]
    rw [primaryTemplatesFor_demote templates campaignId]
    simp [mkFinalizedTemplate]
  · intro campaignId' hne
    constructor
    · exact primaryTemplatesFor_demote_other templates campaignId campaignId' hne
    · show primaryTemplatesFor
        (demoteCampaignPrimaries templates campaignId ++
          [mkFinalizedTemplate newId campaignId name subj body]) campaignId' = _
      rw [primaryTemplatesFor, List.filter_append]
      rw [show List.filter _ (demoteCampaignPrimaries templates campaignId) =
        primaryTemplatesFor (demoteCampaignPrimaries templates campaignId) campaignId' from rfl]
      rw [primaryTemplatesFor_demote_other templates campaignId campaignId' hne]
      have : (campaignId == campaignId') = false :=
        beq_eq_false_iff_ne.mpr (fun hx => hne hx.symm)
      simp [mkFinalizedTemplate, this]

/-- C7 witness: the amended promotion behavior at a concrete two-template
table — T1 primary beforehand, exactly T2 primary afterwards, a foreign
campaign untouched. -/
theorem promote_primary_amended_witness :
    ((2 : Nat) ≠ 1) ∧
    primaryTemplatesFor
      (finalize_style_and_create_template
        [{ id := 1, campaignId := 1, name := "T1", subjectTemplate := "s1",
           bodyTemplate := "b1", isPrimary := true, isFollowUp := false }]
        1 2 ("T2") ("s2") ("b2")).2 1 =
      [mkFinalizedTemplate 2 1 ("T2") ("s2") ("b2")] ∧
    primaryTemplatesFor
      (finalize_style_and_create_template
        [{ id := 1, campaignId := 1, name := "T1", subjectTemplate := "s1",
           bodyTemplate := "b1", isPrimary := true, isFollowUp := false }]
        1 2 ("T2") ("s2") ("b2")).2 2 =
      primaryTemplatesFor
        [{ id := 1, campaignId := 1, name := "T1", subjectTemplate := "s1",
           bodyTemplate := "b1", isPrimary := true, isFollowUp := false }] 2 := by
  refine ⟨by decide, ?_, ?_⟩
  · exact (promote_primary_amended
      [{ id := 1, campaignId := 1, name := "T1", subjectTemplate := "s1",
         bodyTemplate := "b1", isPrimary := true, isFollowUp := false }]
      1 2 ("T2") ("s2") ("b2")).2.1
  · exact ((promote_primary_amended
      [{ id := 1, campaignId := 1, name := "T1", subjectTemplate := "s1",
         bodyTemplate := "b1", isPrimary := true, isFollowUp := false }]
      1 2 ("T2") ("s2") ("b2")).2.2 2 (by decide)).2

/-! ### String-replacement lemmas -/

theorem isPrefixOf_self_eq_true (l : List Char) : l.isPrefixOf l = true := by
  induction l with
  | nil => rfl
  | cons c rest ih => simp [List.isPrefixOf, ih]

theorem replaceAllFuel_nil (pat rep : List Char) (fuel : Nat) :
    replaceAllFuel pat rep fuel [] = [] := by
  cases fuel <;> rfl

/-- Python replace leaves a string without any occurrence of the pattern
unchanged, whatever the replacement. -/
theorem replaceAllFuel_not_contains (pat rep : List Char) (fuel : Nat) :
    ∀ s : List Char, containsSubL pat s = false → replaceAllFuel pat rep fuel s = s := by
  induction fuel with
  | zero => intro s _; cases s <;> rfl
  | succ n ih =>
    intro s h
    cases s with
    | nil => rfl
    | cons c rest =>
      rw [containsSubL] at h
      obtain ⟨h1, h2⟩ := Bool.or_eq_false_iff.mp h
      simp only [replaceAllFuel, h1, Bool.false_eq_true, if_false]
      rw [ih rest h2]

theorem pyReplace_not_contains (s pat rep : String)
    (h : containsSubstr s pat = false) : pyReplace s pat rep = s := by
  unfold pyReplace replaceAllL
  rw [replaceAllFuel_not_contains pat.data rep.data s.data.length s.data h]

/-- Python replace of the whole string by the replacement. -/
theorem pyReplace_whole (pat rep : String) (h : pat.data ≠ []) :
    pyReplace pat pat rep = rep := by
  obtain ⟨c, rest, hp⟩ := List.exists_cons_of_ne_nil h
  unfold pyReplace replaceAllL
  rw [hp]
  simp only [List.length_cons]
  rw [replaceAllFuel, if_pos (isPrefixOf_self_eq_true (c :: rest))]
  simp only [List.length_cons, Nat.add_sub_cancel]
  rw [List.drop_length, replaceAllFuel_nil, List.append_nil]

theorem pyOr_falsy (v : Option String) (d : String)
    (h : v = none ∨ v = some ("")) : pyOr v d = d := by
  rcases h with h | h <;> rw [h] <;> rfl

theorem pyOr_truthy (s d : String) (h : s ≠ ("")) : pyOr (some s) d = s := by
  show (if (s == ("")) = true then d else s) = s
  exact if_neg (fun hx => h (beq_iff_eq.mp hx))

/-- C8 counterexample: with a contact whose last_name field is missing,
personalizing the template consisting of the last_name token yields the
empty string — the code substitutes an empty default for six of the eight
known tokens, contradicting the claim that a missing field always
substitutes a documented non-empty default and never an empty string. -/
theorem personalization_empty_default_counterexample :
    personalize_content ("\x7b\x7blast_name\x7d\x7d")
      { id := 3, campaignId := 1, email := some ("a@b.c"), firstName := none,
        lastName := none, fullName := none, companyName := none,
        jobTitle := none, industry := none, city := none, country := none,
        unsubscribed := false } = "" := by
  rfl

/-- C8 amended: personalization substitutes each known token with the
contact's field value; a missing or empty first_name substitutes the
non-empty default "there" and a missing or empty company_name substitutes
"your company", while the remaining six tokens (here last_name as the
representative) substitute the empty string when the field is missing;
any template containing none of the eight known tokens is left verbatim,
and the substitution function is total, so no input raises an error.
(Side conditions require the substituted value or surrounding template not
to itself contain known tokens, because Python replaces sequentially.) -/
theorem personalization_amended (c : Contact) :
    ((c.firstName = none ∨ c.firstName = some ("")) →
      personalize_content ("\x7b\x7bfirst_name\x7d\x7d") c = "there") ∧
    ((c.companyName = none ∨ c.companyName = some ("")) →
      personalize_content ("\x7b\x7bcompany_name\x7d\x7d") c = "your company") ∧
    ((c.lastName = none ∨ c.lastName = some ("")) →
      personalize_content ("\x7b\x7blast_name\x7d\x7d") c = "") ∧
    (∀ s : String, c.firstName = some s → s ≠ ("") →
      (∀ p ∈ knownTokens, containsSubstr s p = false) →
      personalize_content ("\x7b\x7bfirst_name\x7d\x7d") c = s) ∧
    (∀ t : String, (∀ p ∈ knownTokens, containsSubstr t p = false) →
      personalize_content t c = t) := by
  refine ⟨?_, ?_, ?_, ?_, ?_⟩
  · intro h
    simp only [personalize_content]
    rw [pyOr_falsy c.firstName ("there") h]
    rw [pyReplace_whole ("\x7b\x7bfirst_name\x7d\x7d") ("there") (by decide)]
    rw [pyReplace_not_contains ("there") ("\x7b\x7blast_name\x7d\x7d") _ (by decide)]
    rw [pyReplace_not_contains ("there") ("\x7b\x7bfull_name\x7d\x7d") _ (by decide)]
    rw [pyReplace_not_contains ("there") ("\x7b\x7bcompany_name\x7d\x7d") _ (by decide)]
    rw [pyReplace_not_contains ("there") ("\x7b\x7bjob_title\x7d\x7d") _ (by decide)]
    rw [pyReplace_not_contains ("there") ("\x7b\x7bindustry\x7d\x7d") _ (by decide)]
    rw [pyReplace_not_contains ("there") ("\x7b\x7bcity\x7d\x7d") _ (by decide)]
    rw [pyReplace_not_contains ("there") ("\x7b\x7bcountry\x7d\x7d") _ (by decide)]
  · intro h
    simp only [personalize_content]
    rw [pyReplace_not_contains ("\x7b\x7bcompany_name\x7d\x7d") ("\x7b\x7bfirst_name\x7d\x7d") _ (by decide)]
    rw [pyReplace_not_contains ("\x7b\x7bcompany_name\x7d\x7d") ("\x7b\x7blast_name\x7d\x7d") _ (by decide)]
    rw [pyReplace_not_contains ("\x7b\x7bcompany_name\x7d\x7d") ("\x7b\x7bfull_name\x7d\x7d") _ (by decide)]
    rw [pyOr_falsy c.companyName ("your company") h]
    rw [pyReplace_whole ("\x7b\x7bcompany_name\x7d\x7d") ("your company") (by decide)]
    rw [pyReplace_not_contains ("your company") ("\x7b\x7bjob_title\x7d\x7d") _ (by decide)]
    rw [pyReplace_not_contains ("your company") ("\x7b\x7bindustry\x7d\x7d") _ (by decide)]
    rw [pyReplace_not_contains ("your company") ("\x7b\x7bcity\x7d\x7d") _ (by decide)]
    rw [pyReplace_not_contains ("your company") ("\x7b\x7bcountry\x7d\x7d") _ (by decide)]
  · intro h
    simp only [personalize_content]
    rw [pyReplace_not_contains ("\x7b\x7blast_name\x7d\x7d") ("\x7b\x7bfirst_name\x7d\x7d") _ (by decide)]
    rw [pyOr_falsy c.lastName ("") h]
    rw [pyReplace_whole ("\x7b\x7blast_name\x7d\x7d") ("") (by decide)]
    rw [pyReplace_not_contains ("") ("\x7b\x7bfull_name\x7d\x7d") _ (by decide)]
    rw [pyReplace_not_contains ("") ("\x7b\x7bcompany_name\x7d\x7d") _ (by decide)]
    rw [pyReplace_not_contains ("") ("\x7b\x7bjob_title\x7d\x7d") _ (by decide)]
    rw [pyReplace_not_contains ("") ("\x7b\x7bindustry\x7d\x7d") _ (by decide)]
    rw [pyReplace_not_contains ("") ("\x7b\x7bcity\x7d\x7d") _ (by decide)]
    rw [pyReplace_not_contains ("") ("\x7b\x7bcountry\x7d\x7d") _ (by decide)]
  · intro s hs hne htok
    simp only [personalize_content]
    rw [hs, pyOr_truthy s ("there") hne]
    rw [pyReplace_whole ("\x7b\x7bfirst_name\x7d\x7d") s (by decide)]
    rw [pyReplace_not_contains s ("\x7b\x7blast_name\x7d\x7d") _ (htok _ (by simp [knownTokens]))]
    rw [pyReplace_not_contains s ("\x7b\x7bfull_name\x7d\x7d") _ (htok _ (by simp [knownTokens]))]
    rw [pyReplace_not_contains s ("\x7b\x7bcompany_name\x7d\x7d") _ (htok _ (by simp [knownTokens]))]
    rw [pyReplace_not_contains s ("\x7b\x7bjob_title\x7d\x7d") _ (htok _ (by simp [knownTokens]))]
    rw [pyReplace_not_contains s ("\x7b\x7bindustry\x7d\x7d") _ (htok _ (by simp [knownTokens]))]
    rw [pyReplace_not_contains s ("\x7b\x7bcity\x7d\x7d") _ (htok _ (by simp [knownTokens]))]
    rw [pyReplace_not_contains s ("\x7b\x7bcountry\x7d\x7d") _ (htok _ (by simp [knownTokens]))]
  · intro t htok
    simp only [personalize_content]
    rw [pyReplace_not_contains t ("\x7b\x7bfirst_name\x7d\x7d") _ (htok _ (by simp [knownTokens]))]
    rw [pyReplace_not_contains t ("\x7b\x7blast_name\x7d\x7d") _ (htok _ (by simp [knownTokens]))]
    rw [pyReplace_not_contains t ("\x7b\x7bfull_name\x7d\x7d") _ (htok _ (by simp [knownTokens]))]
    rw [pyReplace_not_contains t ("\x7b\x7bcompany_name\x7d\x7d") _ (htok _ (by simp [knownTokens]))]
    rw [pyReplace_not_contains t ("\x7b\x7bjob_title\x7d\x7d") _ (htok _ (by simp [knownTokens]))]
    rw [pyReplace_not_contains t ("\x7b\x7bindustry\x7d\x7d") _ (htok _ (by simp [knownTokens]))]
    rw [pyReplace_not_contains t ("\x7b\x7bcity\x7d\x7d") _ (htok _ (by simp [knownTokens]))]
    rw [pyReplace_not_contains t ("\x7b\x7bcountry\x7d\x7d") _ (htok _ (by simp [knownTokens]))]

/-- C8 witness: the amended personalization facts at a concrete contact
with no personalization fields, and an unknown token left verbatim. -/
theorem personalization_amended_witness :
    personalize_content ("\x7b\x7bfirst_name\x7d\x7d")
      { id := 3, campaignId := 1, email := some ("a@b.c"), firstName := none,
        lastName := none, fullName := none, companyName := none,
        jobTitle := none, industry := none, city := none, country := none,
        unsubscribed := false } = "there" ∧
    personalize_content ("\x7b\x7bcompany_name\x7d\x7d")
      { id := 3, campaignId := 1, email := some ("a@b.c"), firstName := none,
        lastName := none, fullName := none, companyName := none,
        jobTitle := none, industry := none, city := none, country := none,
        unsubscribed := false } = "your company" ∧
    personalize_content ("\x7b\x7bnickname\x7d\x7d")
      { id := 3, campaignId := 1, email := some ("a@b.c"), firstName := none,
        lastName := none, fullName := none, companyName := none,
        jobTitle := none, industry := none, city := none, country := none,
        unsubscribed := false } = "\x7b\x7bnickname\x7d\x7d" := by
  refine ⟨?_, ?_, ?_⟩
  · exact (personalization_amended _).1 (Or.inl rfl)
  · exact (personalization_amended _).2.1 (Or.inl rfl)
  · exact (personalization_amended _).2.2.2.2 _ (by decide)

/-- C10 witness: a one-contact batch where the contact has no email
address — the dispatch results and the post-run eligibility at that
concrete input. -/
theorem no_email_contact_witness :
    (({ id := 9, campaignId := 1, email := none, firstName := none,
        lastName := none, fullName := none, companyName := none,
        jobTitle := none, industry := none, city := none, country := none,
        unsubscribed := false } : Contact) ∈
      ([{ id := 9, campaignId := 1, email := none, firstName := none,
          lastName := none, fullName := none, companyName := none,
          jobTitle := none, industry := none, city := none, country := none,
          unsubscribed := false }] : List Contact)) ∧
    process_contact (fun _ => (true, none)) ("http://x") (fun _ => ("px")) 0 1
        { id := 5, campaignId := 1, name := "T", subjectTemplate := "s",
          bodyTemplate := "b", isPrimary := true, isFollowUp := false }
        { id := 9, campaignId := 1, email := none, firstName := none,
          lastName := none, fullName := none, companyName := none,
          jobTitle := none, industry := none, city := none, country := none,
          unsubscribed := false } =
      { ok := false, err := some ("Contact has no email address"),
        staged := none, attemptedRecipients := [] } ∧
    ({ id := 9, campaignId := 1, email := none, firstName := none,
       lastName := none, fullName := none, companyName := none,
       jobTitle := none, industry := none, city := none, country := none,
       unsubscribed := false } : Contact) ∈
      db_get_eligible_contacts_for_campaign_sending
        ([] ++ (process_and_send_loop (fun _ => (true, none)) ("http://x")
          (fun _ => ("px")) 0 1
          { id := 5, campaignId := 1, name := "T", subjectTemplate := "s",
            bodyTemplate := "b", isPrimary := true, isFollowUp := false }
          [{ id := 9, campaignId := 1, email := none, firstName := none,
             lastName := none, fullName := none, companyName := none,
             jobTitle := none, industry := none, city := none, country := none,
             unsubscribed := false }]).staged)
        [{ id := 9, campaignId := 1, email := none, firstName := none,
           lastName := none, fullName := none, companyName := none,
           jobTitle := none, industry := none, city := none, country := none,
           unsubscribed := false }] 1 := by
  have h := no_email_contact_fails_without_send_and_stays_eligible
    (fun _ => (true, none)) ("http://x") (fun _ => ("px")) 0 1
    { id := 5, campaignId := 1, name := "T", subjectTemplate := "s",
      bodyTemplate := "b", isPrimary := true, isFollowUp := false }
    []
    [{ id := 9, campaignId := 1, email := none, firstName := none,
       lastName := none, fullName := none, companyName := none,
       jobTitle := none, industry := none, city := none, country := none,
       unsubscribed := false }]
    { id := 9, campaignId := 1, email := none, firstName := none,
      lastName := none, fullName := none, companyName := none,
      jobTitle := none, industry := none, city := none, country := none,
      unsubscribed := false }
    (by decide) (by decide) (by decide) (by decide)
  exact ⟨by decide, h.1, h.2.2⟩

/-! ### Open-event recording lemmas -/

/-- The claim's terminal-priority set and the terminal list of
`db_record_email_open_event` agree on every status (they hold the same
five strings in different order). -/
theorem claim_terminal_set_eq_code (s : String) :
    claimTerminalPrioritySet.contains s = openEventTerminalStatuses.contains s := by
  simp [claimTerminalPrioritySet, openEventTerminalStatuses, List.contains_cons,
    Bool.or_comm, Bool.or_left_comm, Bool.or_assoc]

theorem replaceFirstBy_length (p : SentEmail → Bool) (r : SentEmail)
    (l : List SentEmail) : (replaceFirstBy p r l).length = l.length := by
  induction l with
  | nil => rfl
  | cons e rest ih => cases hpe : p e <;> simp [replaceFirstBy, hpe, ih]

theorem replaceFirstBy_mem_of_not (p : SentEmail → Bool) (r : SentEmail)
    (l : List SentEmail) (e : SentEmail) (he : e ∈ l) (hne : p e = false) :
    e ∈ replaceFirstBy p r l := by
  induction l with
  | nil => cases he
  | cons a rest ih =>
    rcases List.mem_cons.mp he with rfl | hmem
    · rw [replaceFirstBy, if_neg (by rw [hne]; exact Bool.false_ne_true)]
      exact List.mem_cons_self _ _
    · cases hpa : p a
      · rw [replaceFirstBy, if_neg (by rw [hpa]; exact Bool.false_ne_true)]
        exact List.mem_cons_of_mem _ (ih hmem)
      · rw [replaceFirstBy, if_pos hpa]
        exact List.mem_cons_of_mem _ hmem

theorem replaceFirstBy_mem_new (p : SentEmail → Bool) (r : SentEmail)
    (l : List SentEmail) (h : l.any p = true) : r ∈ replaceFirstBy p r l := by
  induction l with
  | nil => cases h
  | cons a rest ih =>
    cases hpa : p a
    · rw [replaceFirstBy, if_neg (by rw [hpa]; exact Bool.false_ne_true)]
      rw [List.any_cons, hpa, Bool.false_or] at h
      exact List.mem_cons_of_mem _ (ih h)
    · rw [replaceFirstBy, if_pos hpa]
      exact List.mem_cons_self _ _

/-- C3 counterexample: a ledger row in status "replied" — a member of the
claim's terminal-priority set — is looked up by its token and downgraded
to status "opened" by `db_record_email_open` (the followups variant cited
by the claim), because that function's terminal list omits "replied".
Under the claim the status should have been left unchanged. -/
theorem record_open_replied_downgrade_counterexample :
    claimTerminalPrioritySet.contains ("replied") = true ∧
    ((db_record_email_open
      [{ id := 11, campaignId := 1, contactId := 2, emailTemplateId := 3,
         subject := "s", body := "b", status := "replied", statusReason := none,
         trackingPixelId := some ("tk"), sentAt := some 0, openedAt := some 1,
         lastOpenedAt := some 1, firstOpenedIp := some ("1.1.1.1"), openCount := 1,
         isFollowUp := false, followsUpOnEmailId := none,
         triggeredByRuleId := none }]
      ("tk") ("9.9.9.9") 50).1.map (fun e => e.status)) = ["opened"] :=
  ⟨rfl, rfl⟩

/-- C3 amended: recording an open is a not-found no-op for an unknown
token, and for the row found by token it increments open_count by exactly
one, always sets last_opened to the event time, sets opened and the
first-opened ip only if previously unset, and never downgrades a terminal
status — where the terminal-priority set is the claim's
{clicked, replied, hard_bounced, spam_complaint, unsubscribed} for
`db_record_email_open_event` (the function behind the tracking endpoint),
but only {clicked, hard_bounced, spam_complaint, unsubscribed} for the
legacy `db_record_email_open`, which therefore sets a replied row to
opened.  Rows with a different id (resp. token) are untouched. -/
theorem record_open_amended (sentEmails : List SentEmail) (tok : String)
    (ip : Option String) (ipStr : String) (now : Int) :
    ((sentEmails.find? (fun e => e.trackingPixelId == some tok) = none →
      db_record_email_open_event sentEmails tok ip now = (sentEmails, false) ∧
      db_record_email_open sentEmails tok ipStr now = (sentEmails, false))) ∧
    (∀ r, sentEmails.find? (fun e => e.trackingPixelId == some tok) = some r →
      ((db_record_email_open_event sentEmails tok ip now).2 = true ∧
       (db_record_email_open_event sentEmails tok ip now).1.length = sentEmails.length ∧
       (∀ e ∈ sentEmails, e.id ≠ r.id →
          e ∈ (db_record_email_open_event sentEmails tok ip now).1) ∧
       (∃ r' ∈ (db_record_email_open_event sentEmails tok ip now).1,
          r'.id = r.id ∧ r'.contactId = r.contactId ∧ r'.campaignId = r.campaignId ∧
          r'.openCount = r.openCount + 1 ∧
          r'.lastOpenedAt = some now ∧
          (r.openedAt = none → r'.openedAt = some now) ∧
          (∀ t₀, r.openedAt = some t₀ → r'.openedAt = some t₀) ∧
          (pyTruthyStr ip = true → r.firstOpenedIp = none → r'.firstOpenedIp = ip) ∧
          (∀ s₀, r.firstOpenedIp = some s₀ → r'.firstOpenedIp = some s₀) ∧
          (claimTerminalPrioritySet.contains r.status = true → r'.status = r.status) ∧
          (claimTerminalPrioritySet.contains r.status = false → r'.status = "opened"))) ∧
      ((db_record_email_open sentEmails tok ipStr now).2 = true ∧
       (db_record_email_open sentEmails tok ipStr now).1.length = sentEmails.length ∧
       (∀ e ∈ sentEmails, e.trackingPixelId ≠ some tok →
          e ∈ (db_record_email_open sentEmails tok ipStr now).1) ∧
       (∃ r' ∈ (db_record_email_open sentEmails tok ipStr now).1,
          r'.id = r.id ∧ r'.contactId = r.contactId ∧ r'.campaignId = r.campaignId ∧
          r'.openCount = r.openCount + 1 ∧
          r'.lastOpenedAt = some now ∧
          (r.openedAt = none → r'.openedAt = some now) ∧
          (∀ t₀, r.openedAt = some t₀ → r'.openedAt = some t₀) ∧
          (r.firstOpenedIp = none → r'.firstOpenedIp = some ipStr) ∧
          (∀ s₀, r.firstOpenedIp = some s₀ → r'.firstOpenedIp = some s₀) ∧
          (legacyOpenTerminalStatuses.contains r.status = true → r'.status = r.status) ∧
          (legacyOpenTerminalStatuses.contains r.status = false → r'.status = "opened")))) := by
  constructor
  · intro hfind
    constructor
    · simp [db_record_email_open_event, hfind]
    · simp [db_record_email_open, hfind]
  · intro r hfind
    have hrmem : r ∈ sentEmails := List.mem_of_find?_eq_some hfind
    have hrtok := List.find?_some hfind
    constructor
    · simp only [db_record_email_open_event, hfind]
      refine ⟨by trivial, by simp, ?_, ?_⟩
      · intro e he hne
        simp only [List.mem_map]
        exact ⟨e, he, by simp [beq_eq_false_iff_ne.mpr hne]⟩
      · refine ⟨{ r with
            openCount := r.openCount + 1,
            lastOpenedAt := some now,
            openedAt := if r.openedAt.isNone then some now else r.openedAt,
            firstOpenedIp :=
              if pyTruthyStr ip && r.firstOpenedIp.isNone then ip
              else r.firstOpenedIp,
            status :=
              if openEventTerminalStatuses.contains r.status then r.status
              else "opened" }, ?_, ?_⟩
        · simp only [List.mem_map]
          exact ⟨r, hrmem, by simp⟩
        · refine ⟨rfl, rfl, rfl, rfl, rfl, ?_, ?_, ?_, ?_, ?_, ?_⟩
          · intro h; simp [h]
          · intro t₀ h; simp [h]
          · intro htr hnone; simp [htr, hnone]
          · intro s₀ h; simp [h]
          · intro h
            rw [claim_terminal_set_eq_code] at h
            exact if_pos h
          · intro h
            rw [claim_terminal_set_eq_code] at h
            exact if_neg (by rw [h]; exact Bool.false_ne_true)
    · simp only [db_record_email_open, hfind]
      refine ⟨by trivial, replaceFirstBy_length _ _ _, ?_, ?_⟩
      · intro e he hne
        exact replaceFirstBy_mem_of_not _ _ _ e he (beq_eq_false_iff_ne.mpr hne)
      · refine ⟨{ r with
            openCount := r.openCount + 1,
            lastOpenedAt := some now,
            openedAt := if r.openedAt.isNone then some now else r.openedAt,
            firstOpenedIp :=
              if r.firstOpenedIp.isNone then some ipStr else r.firstOpenedIp,
            status :=
              if legacyOpenTerminalStatuses.contains r.status then r.status
              else "opened" }, ?_, ?_⟩
        · exact replaceFirstBy_mem_new _ _ _
            (List.any_eq_true.mpr ⟨r, hrmem, hrtok⟩)
        · refine ⟨rfl, rfl, rfl, rfl, rfl, ?_, ?_, ?_, ?_, ?_, ?_⟩
          · intro h; simp [h]
          · intro t₀ h; simp [h]
          · intro hnone; simp [hnone]
          · intro s₀ h; simp [h]
          · intro h; exact if_pos h
          · intro h; exact if_neg (by rw [h]; exact Bool.false_ne_true)

/-- C3 witness: a fresh sent row opened for the first time — the recording
succeeds, the row found by token gets open_count 1, opened and last_opened
set to the event time and status "opened". -/
theorem record_open_amended_witness :
    (([{ id := 11, campaignId := 1, contactId := 2, emailTemplateId := 3,
         subject := "s", body := "b", status := "sent", statusReason := none,
         trackingPixelId := some ("tk"), sentAt := some 0, openedAt := none,
         lastOpenedAt := none, firstOpenedIp := none, openCount := 0,
         isFollowUp := false, followsUpOnEmailId := none,
         triggeredByRuleId := none }] : List SentEmail).find?
      (fun e => e.trackingPixelId == some ("tk")) = some
      { id := 11, campaignId := 1, contactId := 2, emailTemplateId := 3,
        subject := "s", body := "b", status := "sent", statusReason := none,
        trackingPixelId := some ("tk"), sentAt := some 0, openedAt := none,
        lastOpenedAt := none, firstOpenedIp := none, openCount := 0,
        isFollowUp := false, followsUpOnEmailId := none,
        triggeredByRuleId := none }) ∧
    (db_record_email_open_event
      [{ id := 11, campaignId := 1, contactId := 2, emailTemplateId := 3,
         subject := "s", body := "b", status := "sent", statusReason := none,
         trackingPixelId := some ("tk"), sentAt := some 0, openedAt := none,
         lastOpenedAt := none, firstOpenedIp := none, openCount := 0,
         isFollowUp := false, followsUpOnEmailId := none,
         triggeredByRuleId := none }] ("tk") (some ("7.7.7.7")) 5).2 = true ∧
    (∃ r' ∈ (db_record_email_open_event
      [{ id := 11, campaignId := 1, contactId := 2, emailTemplateId := 3,
         subject := "s", body := "b", status := "sent", statusReason := none,
         trackingPixelId := some ("tk"), sentAt := some 0, openedAt := none,
         lastOpenedAt := none, firstOpenedIp := none, openCount := 0,
         isFollowUp := false, followsUpOnEmailId := none,
         triggeredByRuleId := none }] ("tk") (some ("7.7.7.7")) 5).1,
      r'.openCount = 1 ∧ r'.openedAt = some 5 ∧ r'.lastOpenedAt = some 5 ∧
      r'.status = "opened") := by
  have h := (record_open_amended
    [{ id := 11, campaignId := 1, contactId := 2, emailTemplateId := 3,
       subject := "s", body := "b", status := "sent", statusReason := none,
       trackingPixelId := some ("tk"), sentAt := some 0, openedAt := none,
       lastOpenedAt := none, firstOpenedIp := none, openCount := 0,
       isFollowUp := false, followsUpOnEmailId := none,
       triggeredByRuleId := none }] ("tk") (some ("7.7.7.7")) ("7.7.7.7") 5).2
    { id := 11, campaignId := 1, contactId := 2, emailTemplateId := 3,
      subject := "s", body := "b", status := "sent", statusReason := none,
      trackingPixelId := some ("tk"), sentAt := some 0, openedAt := none,
      lastOpenedAt := none, firstOpenedIp := none, openCount := 0,
      isFollowUp := false, followsUpOnEmailId := none,
      triggeredByRuleId := none } rfl
  obtain ⟨hflag, _, _, r', hmem, _, _, _, hcount, hlast, hopened, _, _, _, _, hst⟩ := h.1
  refine ⟨rfl, hflag, r', hmem, ?_, hopened rfl, hlast, hst (by decide)⟩
  rw [hcount]

/-! ### Follow-up candidate query lemmas -/

theorem sentAt_cond_iff (e : SentEmail) (cutoff : Int) :
    (match e.sentAt with
     | some t => decide (t ≤ cutoff)
     | none => false) = true ↔ ∃ t, e.sentAt = some t ∧ t ≤ cutoff := by
  cases h : e.sentAt with
  | none => simp
  | some t => simp [decide_eq_true_iff]

theorem contactCond_iff (contacts : List Contact) (cid : Nat) :
    (match findContact contacts cid with
     | some c => !c.unsubscribed
     | none => false) = true ↔
    ∃ c, findContact contacts cid = some c ∧ c.unsubscribed = false := by
  cases h : findContact contacts cid with
  | none => simp
  | some c => simp [Bool.not_eq_true']

/-- On the three documented condition strings the code's status filter
coincides with the spec's qualifying-status table, provided the status is
a non-failed terminal one (which every row carrying a sent timestamp has:
only a successful send sets sent_at, and engagement events only move
between non-failed terminal statuses). -/
theorem statusQualifies_iff_claim (cond s : String)
    (hcond : cond = "not_opened_within_delay" ∨ cond = "not_clicked_within_delay" ∨
      cond = "sent_anyway")
    (hterm : nonFailedTerminalStatuses.contains s = true) :
    statusQualifies cond s = claimStatusQualifies cond s := by
  rcases hcond with rfl | rfl | rfl
  · rfl
  · rfl
  · show true = nonFailedTerminalStatuses.contains s
    exact hterm.symm

/-- C5: provided every ledger row carrying a sent timestamp has a
non-failed terminal status (the reachable-ledger invariant), the candidate
query returns exactly the initial rows (follows_up_on NULL) of the rule's
campaign and original template whose sent timestamp is at least the rule's
delay old, whose inner-joined contact is not unsubscribed, and whose
status qualifies under the spec's condition table. -/
theorem follow_up_candidates_exact (sentEmails : List SentEmail)
    (contacts : List Contact) (campaignId origTemplateId : Nat) (cond : String)
    (minDelaySeconds now : Int)
    (hcond : cond = "not_opened_within_delay" ∨ cond = "not_clicked_within_delay" ∨
      cond = "sent_anyway")
    (hledger : ∀ e ∈ sentEmails, e.sentAt ≠ none →
      nonFailedTerminalStatuses.contains e.status = true)
    (e : SentEmail) :
    e ∈ db_get_initial_emails_for_rule sentEmails contacts campaignId
        origTemplateId cond minDelaySeconds now ↔
      e ∈ sentEmails ∧ e.campaignId = campaignId ∧
      e.emailTemplateId = origTemplateId ∧
      (∃ t, e.sentAt = some t ∧ t ≤ now - minDelaySeconds) ∧
      (∃ c, findContact contacts e.contactId = some c ∧ c.unsubscribed = false) ∧
      e.followsUpOnEmailId = none ∧
      claimStatusQualifies cond e.status = true := by
  rw [db_get_initial_emails_for_rule, List.mem_filter]
  constructor
  · rintro ⟨hmem, hpred⟩
    rw [initialEmailPred] at hpred
    rw [Bool.and_eq_true, Bool.and_eq_true, Bool.and_eq_true, Bool.and_eq_true,
      Bool.and_eq_true] at hpred
    obtain ⟨⟨⟨⟨⟨h1, h2⟩, h3⟩, h4⟩, h5⟩, h6⟩ := hpred
    have hsent := sentAt_cond_iff e (now - minDelaySeconds) |>.mp h3
    have hterm : nonFailedTerminalStatuses.contains e.status = true := by
      obtain ⟨t, ht, -⟩ := hsent
      exact hledger e hmem (by rw [ht]; exact Option.some_ne_none t)
    refine ⟨hmem, beq_iff_eq.mp h1, beq_iff_eq.mp h2, hsent,
      (contactCond_iff contacts e.contactId).mp h4,
      Option.isNone_iff_eq_none.mp h5, ?_⟩
    rw [← statusQualifies_iff_claim cond e.status hcond hterm]
    exact h6
  · rintro ⟨hmem, h1, h2, hsent, hcontact, h5, h6⟩
    have hterm : nonFailedTerminalStatuses.contains e.status = true := by
      obtain ⟨t, ht, -⟩ := hsent
      exact hledger e hmem (by rw [ht]; exact Option.some_ne_none t)
    refine ⟨hmem, ?_⟩
    rw [initialEmailPred]
    rw [Bool.and_eq_true, Bool.and_eq_true, Bool.and_eq_true, Bool.and_eq_true,
      Bool.and_eq_true]
    refine ⟨⟨⟨⟨⟨beq_iff_eq.mpr h1, beq_iff_eq.mpr h2⟩,
      (sentAt_cond_iff e (now - minDelaySeconds)).mpr hsent⟩,
      (contactCond_iff contacts e.contactId).mpr hcontact⟩,
      Option.isNone_iff_eq_none.mpr h5⟩, ?_⟩
    rw [statusQualifies_iff_claim cond e.status hcond hterm]
    exact h6

/-- C5 witness: a 3-day not-opened rule at a concrete ledger — a 4-day-old
send still in status sent is surfaced, a 2-day-old send is not. -/
theorem follow_up_candidates_witness :
    (("not_opened_within_delay" : String) = "not_opened_within_delay" ∨
      ("not_opened_within_delay" : String) = "not_clicked_within_delay" ∨
      ("not_opened_within_delay" : String) = "sent_anyway") ∧
    (∀ e : SentEmail,
      e ∈ ([{ id := 22, campaignId := 1, contactId := 2, emailTemplateId := 5,
              subject := "s", body := "b", status := "sent", statusReason := none,
              trackingPixelId := some ("t22"), sentAt := some (8 * 86400),
              openedAt := none, lastOpenedAt := none, firstOpenedIp := none,
              openCount := 0, isFollowUp := false, followsUpOnEmailId := none,
              triggeredByRuleId := none },
            { id := 21, campaignId := 1, contactId := 2, emailTemplateId := 5,
              subject := "s", body := "b", status := "sent", statusReason := none,
              trackingPixelId := some ("t21"), sentAt := some (6 * 86400),
              openedAt := none, lastOpenedAt := none, firstOpenedIp := none,
              openCount := 0, isFollowUp := false, followsUpOnEmailId := none,
              triggeredByRuleId := none }] : List SentEmail) →
      e.sentAt ≠ none → nonFailedTerminalStatuses.contains e.status = true) ∧
    ({ id := 21, campaignId := 1, contactId := 2, emailTemplateId := 5,
       subject := "s", body := "b", status := "sent", statusReason := none,
       trackingPixelId := some ("t21"), sentAt := some (6 * 86400),
       openedAt := none, lastOpenedAt := none, firstOpenedIp := none,
       openCount := 0, isFollowUp := false, followsUpOnEmailId := none,
       triggeredByRuleId := none } : SentEmail) ∈
      db_get_initial_emails_for_rule
        [{ id := 22, campaignId := 1, contactId := 2, emailTemplateId := 5,
           subject := "s", body := "b", status := "sent", statusReason := none,
           trackingPixelId := some ("t22"), sentAt := some (8 * 86400),
           openedAt := none, lastOpenedAt := none, firstOpenedIp := none,
           openCount := 0, isFollowUp := false, followsUpOnEmailId := none,
           triggeredByRuleId := none },
         { id := 21, campaignId := 1, contactId := 2, emailTemplateId := 5,
           subject := "s", body := "b", status := "sent", statusReason := none,
           trackingPixelId := some ("t21"), sentAt := some (6 * 86400),
           openedAt := none, lastOpenedAt := none, firstOpenedIp := none,
           openCount := 0, isFollowUp := false, followsUpOnEmailId := none,
           triggeredByRuleId := none }]
        [{ id := 2, campaignId := 1, email := some ("c@x.y"), firstName := none,
           lastName := none, fullName := none, companyName := none,
           jobTitle := none, industry := none, city := none, country := none,
           unsubscribed := false }]
        1 5 ("not_opened_within_delay") (3 * 86400) (10 * 86400) ∧
    ({ id := 22, campaignId := 1, contactId := 2, emailTemplateId := 5,
       subject := "s", body := "b", status := "sent", statusReason := none,
       trackingPixelId := some ("t22"), sentAt := some (8 * 86400),
       openedAt := none, lastOpenedAt := none, firstOpenedIp := none,
       openCount := 0, isFollowUp := false, followsUpOnEmailId := none,
       triggeredByRuleId := none } : SentEmail) ∉
      db_get_initial_emails_for_rule
        [{ id := 22, campaignId := 1, contactId := 2, emailTemplateId := 5,
           subject := "s", body := "b", status := "sent", statusReason := none,
           trackingPixelId := some ("t22"), sentAt := some (8 * 86400),
           openedAt := none, lastOpenedAt := none, firstOpenedIp := none,
           openCount := 0, isFollowUp := false, followsUpOnEmailId := none,
           triggeredByRuleId := none },
         { id := 21, campaignId := 1, contactId := 2, emailTemplateId := 5,
           subject := "s", body := "b", status := "sent", statusReason := none,
           trackingPixelId := some ("t21"), sentAt := some (6 * 86400),
           openedAt := none, lastOpenedAt := none, firstOpenedIp := none,
           openCount := 0, isFollowUp := false, followsUpOnEmailId := none,
           triggeredByRuleId := none }]
        [{ id := 2, campaignId := 1, email := some ("c@x.y"), firstName := none,
           lastName := none, fullName := none, companyName := none,
           jobTitle := none, industry := none, city := none, country := none,
           unsubscribed := false }]
        1 5 ("not_opened_within_delay") (3 * 86400) (10 * 86400) := by
  refine ⟨Or.inl rfl, by decide, ?_, ?_⟩
  · refine (follow_up_candidates_exact _ _ 1 5 ("not_opened_within_delay")
      (3 * 86400) (10 * 86400) (Or.inl rfl) (by decide) _).mpr
      ⟨by decide, rfl, rfl, ⟨6 * 86400, rfl, by decide⟩, ?_, rfl, by decide⟩
    exact ⟨{ id := 2, campaignId := 1, email := some ("c@x.y"), firstName := none,
             lastName := none, fullName := none, companyName := none,
             jobTitle := none, industry := none, city := none, country := none,
             unsubscribed := false }, rfl, rfl⟩
  · intro hmem
    obtain ⟨-, -, -, ⟨t, ht, hle⟩, -⟩ := (follow_up_candidates_exact _ _ 1 5
      ("not_opened_within_delay") (3 * 86400) (10 * 86400) (Or.inl rfl)
      (by decide) _).mp hmem
    have h8 : some ((8 : Int) * 86400) = some t := ht
    have := Option.some.inj h8
    omega

/-! ### Follow-up idempotence lemmas -/

section FollowUpIdempotence

variable (contacts : List Contact) (templates : List EmailTemplate)
variable (uuidGen : Nat → Nat → String) (appBaseUrl : String)
variable (rule : FollowUpRule) (now : Int)

theorem mkFollowUpRecord_isFollowUp (orig : SentEmail) (c : Contact)
    (tmpl : EmailTemplate) :
    isFollowUpRecord (mkFollowUpRecord uuidGen appBaseUrl rule orig c tmpl) = true :=
  rfl

theorem mkFollowUpRecord_pairMatches (orig : SentEmail) (c : Contact)
    (tmpl : EmailTemplate) :
    pairMatches orig.id rule.id (mkFollowUpRecord uuidGen appBaseUrl rule orig c tmpl) = true := by
  simp [pairMatches, mkFollowUpRecord]

/-- A recorded follow-up for a pair stays recorded when the ledger grows. -/
theorem hasFU_append (sentEmails suffix : List SentEmail) (o r : Nat)
    (h : db_has_follow_up_been_sent sentEmails o r = true) :
    db_has_follow_up_been_sent (sentEmails ++ suffix) o r = true := by
  rw [db_has_follow_up_been_sent, List.any_append]
  rw [db_has_follow_up_been_sent] at h
  rw [h, Bool.true_or]

/-- A follow-up row never qualifies as an initial-email candidate. -/
theorem initialEmailPred_followUp_false (campaignId origTemplateId : Nat)
    (cond : String) (minDelaySeconds : Int) (e : SentEmail)
    (h : isFollowUpRecord e = true) :
    initialEmailPred contacts campaignId origTemplateId cond minDelaySeconds now e = false := by
  have h5 : e.followsUpOnEmailId.isNone = false := by
    rw [isFollowUpRecord] at h
    cases ho : e.followsUpOnEmailId with
    | none => rw [ho] at h; cases h
    | some a => rfl
  rw [initialEmailPred, h5]
  simp

/-- Appending only follow-up rows to the ledger does not change the
candidate query of any rule. -/
theorem query_append_followUps (sentEmails suffix : List SentEmail)
    (campaignId origTemplateId : Nat) (cond : String) (minDelaySeconds : Int)
    (hall : ∀ e ∈ suffix, isFollowUpRecord e = true) :
    db_get_initial_emails_for_rule (sentEmails ++ suffix) contacts campaignId
        origTemplateId cond minDelaySeconds now =
      db_get_initial_emails_for_rule sentEmails contacts campaignId
        origTemplateId cond minDelaySeconds now := by
  rw [db_get_initial_emails_for_rule, db_get_initial_emails_for_rule, List.filter_append]
  have hnil : suffix.filter
      (initialEmailPred contacts campaignId origTemplateId cond minDelaySeconds now) = [] := by
    rw [List.filter_eq_nil_iff]
    intro e he
    rw [initialEmailPred_followUp_false contacts now campaignId origTemplateId cond
      minDelaySeconds e (hall e he)]
    exact Bool.false_ne_true
  rw [hnil, List.append_nil]

theorem SettledFor_append (sentEmails suffix : List SentEmail) (orig : SentEmail)
    (h : SettledFor contacts templates rule sentEmails orig) :
    SettledFor contacts templates rule (sentEmails ++ suffix) orig := by
  rcases h with h | h
  · exact Or.inl (hasFU_append _ _ _ _ h)
  · exact Or.inr h

theorem RuleSettled_append (sentEmails suffix : List SentEmail)
    (hall : ∀ e ∈ suffix, isFollowUpRecord e = true)
    (h : RuleSettled contacts templates now sentEmails rule) :
    RuleSettled contacts templates now (sentEmails ++ suffix) rule := by
  intro orig hmem
  rw [query_append_followUps contacts now sentEmails suffix rule.campaignId
    rule.originalEmailTemplateId rule.condition ((rule.delayDays : Int) * 86400) hall] at hmem
  exact SettledFor_append contacts templates rule sentEmails suffix orig (h orig hmem)

/-- The inner loop only appends (follow-up) rows to the ledger. -/
theorem processCandidates_shape :
    ∀ (cands sentEmails : List SentEmail), ∃ suffix,
      (processCandidates contacts templates uuidGen appBaseUrl rule sentEmails cands).1 =
        sentEmails ++ suffix ∧ ∀ e ∈ suffix, isFollowUpRecord e = true := by
  intro cands
  induction cands with
  | nil => exact fun s => ⟨[], by rw [processCandidates, List.append_nil], by simp⟩
  | cons orig rest ih =>
    intro s
    rw [processCandidates]
    by_cases h1 : db_has_follow_up_been_sent s orig.id rule.id = true
    · rw [if_pos h1]; exact ih s
    · rw [if_neg h1]
      cases hc : findContact contacts orig.contactId with
      | none =>
        cases ht : findTemplate templates rule.followUpEmailTemplateId <;>
          simp only [] <;> exact ih s
      | some c =>
        cases ht : findTemplate templates rule.followUpEmailTemplateId with
        | none => simp only []; exact ih s
        | some t =>
          simp only []
          by_cases hu : c.unsubscribed = true
          · rw [if_pos hu]; exact ih s
          · rw [if_neg hu]
            obtain ⟨suf, hsuf, hallsuf⟩ :=
              ih (s ++ [mkFollowUpRecord uuidGen appBaseUrl rule orig c t])
            refine ⟨mkFollowUpRecord uuidGen appBaseUrl rule orig c t :: suf, ?_, ?_⟩
            · show (processCandidates contacts templates uuidGen appBaseUrl rule
                (s ++ [mkFollowUpRecord uuidGen appBaseUrl rule orig c t]) rest).1 = _
              rw [hsuf, List.append_assoc]
              rfl
            · intro e he
              rcases List.mem_cons.mp he with rfl | he'
              · exact mkFollowUpRecord_isFollowUp uuidGen appBaseUrl rule orig c t
              · exact hallsuf e he'

/-- After the inner loop, every candidate it was given is settled in the
resulting ledger. -/
theorem processCandidates_settles :
    ∀ (cands sentEmails : List SentEmail) (orig : SentEmail), orig ∈ cands →
      SettledFor contacts templates rule
        (processCandidates contacts templates uuidGen appBaseUrl rule sentEmails cands).1 orig := by
  intro cands
  induction cands with
  | nil => intro s orig h; cases h
  | cons o rest ih =>
    intro s orig hmem
    rw [processCandidates]
    rcases List.mem_cons.mp hmem with rfl | hmem'
    · by_cases h1 : db_has_follow_up_been_sent s orig.id rule.id = true
      · rw [if_pos h1]
        obtain ⟨suf, hsuf, -⟩ := processCandidates_shape contacts templates uuidGen
          appBaseUrl rule rest s
        rw [hsuf]
        exact Or.inl (hasFU_append s suf orig.id rule.id h1)
      · rw [if_neg h1]
        cases hc : findContact contacts orig.contactId with
        | none =>
          cases ht : findTemplate templates rule.followUpEmailTemplateId <;>
            simp only [] <;>
            exact Or.inr (by rw [skipsIndep, hc, ht])
        | some c =>
          cases ht : findTemplate templates rule.followUpEmailTemplateId with
          | none => simp only []; exact Or.inr (by rw [skipsIndep, hc, ht])
          | some t =>
            simp only []
            by_cases hu : c.unsubscribed = true
            · rw [if_pos hu]
              exact Or.inr (by rw [skipsIndep, hc, ht]; exact hu)
            · rw [if_neg hu]
              obtain ⟨suf, hsuf, -⟩ := processCandidates_shape contacts templates uuidGen
                appBaseUrl rule rest
                (s ++ [mkFollowUpRecord uuidGen appBaseUrl rule orig c t])
              show SettledFor contacts templates rule
                (processCandidates contacts templates uuidGen appBaseUrl rule
                  (s ++ [mkFollowUpRecord uuidGen appBaseUrl rule orig c t]) rest).1 orig
              rw [hsuf]
              have hnew : db_has_follow_up_been_sent
                  (s ++ [mkFollowUpRecord uuidGen appBaseUrl rule orig c t])
                  orig.id rule.id = true := by
                rw [db_has_follow_up_been_sent, List.any_append]
                have : ([mkFollowUpRecord uuidGen appBaseUrl rule orig c t] : List SentEmail).any
                    (pairMatches orig.id rule.id) = true := by
                  rw [List.any_cons]
                  rw [mkFollowUpRecord_pairMatches uuidGen appBaseUrl rule orig c t]
                  rfl
                rw [this, Bool.or_true]
              exact Or.inl (hasFU_append _ suf orig.id rule.id hnew)
    · by_cases h1 : db_has_follow_up_been_sent s o.id rule.id = true
      · rw [if_pos h1]; exact ih s orig hmem'
      · rw [if_neg h1]
        cases hc : findContact contacts o.contactId with
        | none =>
          cases ht : findTemplate templates rule.followUpEmailTemplateId <;>
            simp only [] <;> exact ih s orig hmem'
        | some c =>
          cases ht : findTemplate templates rule.followUpEmailTemplateId with
          | none => simp only []; exact ih s orig hmem'
          | some t =>
            simp only []
            by_cases hu : c.unsubscribed = true
            · rw [if_pos hu]; exact ih s orig hmem'
            · rw [if_neg hu]
              exact ih (s ++ [mkFollowUpRecord uuidGen appBaseUrl rule o c t]) orig hmem'

/-- On a ledger where every candidate is settled, the inner loop is the
identity and stages nothing. -/
theorem processCandidates_noop :
    ∀ (cands sentEmails : List SentEmail),
      (∀ orig ∈ cands, SettledFor contacts templates rule sentEmails orig) →
      processCandidates contacts templates uuidGen appBaseUrl rule sentEmails cands =
        (sentEmails, 0) := by
  intro cands
  induction cands with
  | nil => intro s _; rfl
  | cons o rest ih =>
    intro s h
    have ho := h o (List.mem_cons_self o rest)
    have hrest : ∀ orig ∈ rest, SettledFor contacts templates rule s orig :=
      fun orig hm => h orig (List.mem_cons_of_mem o hm)
    rw [processCandidates]
    by_cases h1 : db_has_follow_up_been_sent s o.id rule.id = true
    · rw [if_pos h1]; exact ih s hrest
    · rw [if_neg h1]
      have hskip : skipsIndep contacts templates rule o = true := by
        rcases ho with ho | ho
        · exact absurd ho h1
        · exact ho
      cases hc : findContact contacts o.contactId with
      | none =>
        cases ht : findTemplate templates rule.followUpEmailTemplateId <;>
          simp only [] <;> exact ih s hrest
      | some c =>
        cases ht : findTemplate templates rule.followUpEmailTemplateId with
        | none => simp only []; exact ih s hrest
        | some t =>
          simp only []
          have hu : c.unsubscribed = true := by
            rw [skipsIndep, hc, ht] at hskip
            exact hskip
          rw [if_pos hu]
          exact ih s hrest

/-- The rule step only appends follow-up rows. -/
theorem processRule_shape (sentEmails : List SentEmail) :
    ∃ suffix,
      (processRule contacts templates uuidGen appBaseUrl now sentEmails rule).1 =
        sentEmails ++ suffix ∧ ∀ e ∈ suffix, isFollowUpRecord e = true := by
  rw [processRule]
  exact processCandidates_shape contacts templates uuidGen appBaseUrl rule _ sentEmails

/-- After processing a rule, that rule is settled on the resulting ledger. -/
theorem processRule_settles (sentEmails : List SentEmail) :
    RuleSettled contacts templates now
      (processRule contacts templates uuidGen appBaseUrl now sentEmails rule).1 rule := by
  intro orig hmem
  obtain ⟨suf, hsuf, hall⟩ := processRule_shape contacts templates uuidGen appBaseUrl
    rule now sentEmails
  rw [hsuf, query_append_followUps contacts now sentEmails suf rule.campaignId
    rule.originalEmailTemplateId rule.condition ((rule.delayDays : Int) * 86400) hall] at hmem
  rw [processRule] at hsuf ⊢
  exact processCandidates_settles contacts templates uuidGen appBaseUrl rule _ sentEmails orig hmem

/-- A rule for which every candidate is settled processes to a no-op. -/
theorem processRule_noop (sentEmails : List SentEmail)
    (h : RuleSettled contacts templates now sentEmails rule) :
    processRule contacts templates uuidGen appBaseUrl now sentEmails rule =
      (sentEmails, 0) := by
  rw [processRule]
  exact processCandidates_noop contacts templates uuidGen appBaseUrl rule _ sentEmails h

/-- The outer loop only appends follow-up rows. -/
theorem processRules_shape :
    ∀ (rules : List FollowUpRule) (sentEmails : List SentEmail), ∃ suffix,
      (processRules contacts templates uuidGen appBaseUrl now sentEmails rules).1 =
        sentEmails ++ suffix ∧ ∀ e ∈ suffix, isFollowUpRecord e = true := by
  intro rules
  induction rules with
  | nil => exact fun s => ⟨[], by rw [processRules, List.append_nil], by simp⟩
  | cons r rest ih =>
    intro s
    obtain ⟨suf1, h1, hall1⟩ := processRule_shape contacts templates uuidGen appBaseUrl r now s
    obtain ⟨suf2, h2, hall2⟩ :=
      ih (processRule contacts templates uuidGen appBaseUrl now s r).1
    refine ⟨suf1 ++ suf2, ?_, ?_⟩
    · show (processRules contacts templates uuidGen appBaseUrl now
        (processRule contacts templates uuidGen appBaseUrl now s r).1 rest).1 = _
      rw [h2, h1, List.append_assoc]
    · intro e he
      rcases List.mem_append.mp he with he | he
      · exact hall1 e he
      · exact hall2 e he

/-- After a full run, every processed rule is settled on the final ledger. -/
theorem processRules_settles :
    ∀ (rules : List FollowUpRule) (sentEmails : List SentEmail) (r : FollowUpRule),
      r ∈ rules →
      RuleSettled contacts templates now
        (processRules contacts templates uuidGen appBaseUrl now sentEmails rules).1 r := by
  intro rules
  induction rules with
  | nil => intro s r h; cases h
  | cons r0 rest ih =>
    intro s r hmem
    rcases List.mem_cons.mp hmem with rfl | hmem'
    · have h1 := processRule_settles contacts templates uuidGen appBaseUrl r now s
      obtain ⟨suf, hsuf, hall⟩ := processRules_shape contacts templates uuidGen appBaseUrl
        now rest (processRule contacts templates uuidGen appBaseUrl now s r).1
      show RuleSettled contacts templates now
        (processRules contacts templates uuidGen appBaseUrl now
          (processRule contacts templates uuidGen appBaseUrl now s r).1 rest).1 r
      rw [hsuf]
      exact RuleSettled_append contacts templates r now _ suf hall h1
    · show RuleSettled contacts templates now
        (processRules contacts templates uuidGen appBaseUrl now
          (processRule contacts templates uuidGen appBaseUrl now s r0).1 rest).1 r
      exact ih (processRule contacts templates uuidGen appBaseUrl now s r0).1 r hmem'

/-- A run over rules that are all settled changes nothing and creates no
drafts. -/
theorem processRules_noop :
    ∀ (rules : List FollowUpRule) (sentEmails : List SentEmail),
      (∀ r ∈ rules, RuleSettled contacts templates now sentEmails r) →
      processRules contacts templates uuidGen appBaseUrl now sentEmails rules =
        (sentEmails, 0) := by
  intro rules
  induction rules with
  | nil => intro s _; rfl
  | cons r0 rest ih =>
    intro s h
    have h0 : processRule contacts templates uuidGen appBaseUrl now s r0 = (s, 0) :=
      processRule_noop contacts templates uuidGen appBaseUrl r0 now s
        (h r0 (List.mem_cons_self r0 rest))
    have h1 := ih s (fun r hr => h r (List.mem_cons_of_mem r0 hr))
    simp [processRules, h0, h1]

end FollowUpIdempotence

/-- C1: for every (original sent record, follow-up rule) pair at most one
follow-up draft is staged — the processor checks HasFollowUpBeenSent
before staging — so running process_due_follow_ups a second time on the
ledger produced by a first run, with the same rules, contacts, templates
and clock, creates zero additional drafts and leaves the ledger
unchanged. -/
theorem follow_up_processing_idempotent (rules : List FollowUpRule)
    (contacts : List Contact) (templates : List EmailTemplate)
    (uuidGen : Nat → Nat → String) (appBaseUrl : String) (now : Int)
    (sentEmails : List SentEmail) :
    (process_due_follow_ups rules contacts templates uuidGen appBaseUrl now
      (process_due_follow_ups rules contacts templates uuidGen appBaseUrl now
        sentEmails).1).2.2 = 0 ∧
    (process_due_follow_ups rules contacts templates uuidGen appBaseUrl now
      (process_due_follow_ups rules contacts templates uuidGen appBaseUrl now
        sentEmails).1).1 =
      (process_due_follow_ups rules contacts templates uuidGen appBaseUrl now
        sentEmails).1 := by
  have hsettled : ∀ r ∈ db_get_active_follow_up_rules rules,
      RuleSettled contacts templates now
        (processRules contacts templates uuidGen appBaseUrl now sentEmails
          (db_get_active_follow_up_rules rules)).1 r :=
    fun r hr => processRules_settles contacts templates uuidGen appBaseUrl now
      (db_get_active_follow_up_rules rules) sentEmails r hr
  have hnoop := processRules_noop contacts templates uuidGen appBaseUrl now
    (db_get_active_follow_up_rules rules)
    (processRules contacts templates uuidGen appBaseUrl now sentEmails
      (db_get_active_follow_up_rules rules)).1 hsettled
  constructor
  · show (processRules contacts templates uuidGen appBaseUrl now
      (processRules contacts templates uuidGen appBaseUrl now sentEmails
        (db_get_active_follow_up_rules rules)).1
      (db_get_active_follow_up_rules rules)).2 = 0
    rw [hnoop]
  · show (processRules contacts templates uuidGen appBaseUrl now
      (processRules contacts templates uuidGen appBaseUrl now sentEmails
        (db_get_active_follow_up_rules rules)).1
      (db_get_active_follow_up_rules rules)).1 =
      (processRules contacts templates uuidGen appBaseUrl now sentEmails
        (db_get_active_follow_up_rules rules)).1
    rw [hnoop]

end PebbleOutreach
